import Mathlib

/-!
# TCR-Game: shallow embedding of the game engine and player store

This file embeds, in Lean 4, the core game logic of the TCR-Game
repository (Go): `internal/game/engine.go`, `internal/game/data.go` and
`internal/game/types.go`.  Go structs become Lean structures, Go `int`
becomes `Int`, Go `float64` arithmetic on the small in-range values used
by the engine is modelled with `ℚ` (`int(x)` conversion = truncation
toward zero), and the engine's pointer mutations of `ge.gameState`
become explicit read-modify-write on an `Engine` record.  The engine's
two event sinks (the `eventQueue` slice filled by `logEvent` and the
`eventChan` channel filled by `broadcastAction`) are merged into one
ordered `events` list; `rand.Float64() < CRIT` crit rolls are modelled
by a boolean oracle argument (`critRoll`), which is exact because the
code only branches on the outcome of the comparison.  Wall-clock delays
(`time.Sleep`) are dropped: each deferred body is embedded as its own
operation, and reachability is closed under all operations.
-/

namespace TCR

/-- Troop kinds, from `types.go` (`TroopType` constants). -/
inductive TroopType where
  | Pawn
  | Bishop
  | Rook
  | Knight
  | Prince
  | Queen
deriving DecidableEq, Repr

/-- Tower kinds.  `engine.go` and `data.go` use three constants
`KingTower`, `GuardTower1`, `GuardTower2`; the constant declarations are
not among the provided source files.  Modelled from the spec: §6.1 gives
the wire names `King Tower`, `Guard Tower 1`, `Guard Tower 2`. -/
inductive TowerType where
  | KingTower
  | GuardTower1
  | GuardTower2
deriving DecidableEq, Repr

/-- Wire string of a tower name (`string(tower.Name)` in Go).
Modelled from the spec §6.1 since the string constants are not in the
provided sources. -/
def TowerType.str : TowerType → String
  | .KingTower => "King Tower"
  | .GuardTower1 => "Guard Tower 1"
  | .GuardTower2 => "Guard Tower 2"

/-- Game mode, from `types.go` (`ModeSimple`, `ModeEnhanced`).  The Go
field is a string; only these two values are ever produced by
matchmaking. -/
inductive GameMode where
  | simple
  | enhanced
deriving DecidableEq, Repr

/-- Game status, from `types.go` (`StatusWaiting`, `StatusActive`,
`StatusFinished`). -/
inductive GameStatus where
  | waiting
  | active
  | finished
deriving DecidableEq, Repr

/-- Base stats of a troop kind (`TroopSpec` in `types.go`).  The
`Special` string is omitted: no embedded operation reads it. -/
structure TroopSpec where
  hp : Int
  atk : Int
  defense : Int
  crit : ℚ
  mana : Int
  exp : Int
deriving DecidableEq, Repr

/-- A troop instance (`Troop` in `types.go`, plus the `MaxHP` field that
`engine.go` and `data.go` write). -/
structure Troop where
  name : TroopType
  hp : Int
  maxHP : Int
  atk : Int
  defense : Int
  crit : ℚ
  mana : Int
  exp : Int
  level : Int
deriving DecidableEq, Repr

/-- A tower instance (`Tower` in `types.go`). -/
structure Tower where
  name : TowerType
  hp : Int
  maxHP : Int
  atk : Int
  defense : Int
  crit : ℚ
  exp : Int
  level : Int
  isActive : Bool
deriving DecidableEq, Repr

/-- A player slot inside a game (`Player` in `types.go`). -/
structure Player where
  id : String
  username : String
  level : Int
  exp : Int
  mana : Int
  maxMana : Int
  troops : List Troop
  towers : List Tower
  troopsDeployedThisTurn : Int
deriving DecidableEq, Repr

/-- The room state (`GameState` in `types.go`).  `StartTime` and the
game id are omitted (wall-clock data never read by game rules); the
anonymous `TowersKilled` struct becomes two fields. -/
structure GameState where
  gameMode : GameMode
  status : GameStatus
  player1 : Player
  player2 : Player
  currentTurn : String
  timeLeft : Int
  winner : String
  towersKilledP1 : Int
  towersKilledP2 : Int
deriving DecidableEq, Repr

/-- A value inside the `Data map[string]interface{}` of a Go
`CombatAction`. -/
inductive EVal where
  | int (n : Int)
  | str (s : String)
  | troop (t : TroopType)
  | tower (t : TowerType)
  | bool (b : Bool)
deriving DecidableEq, Repr

/-- An engine event (`CombatAction` in `types.go`).  `Timestamp` is
omitted; diagnostic-only `Data` entries (usernames, free-text messages)
are omitted while the entries the rules read or the claims mention are
kept. -/
structure CombatAction where
  type : String
  playerID : String := ""
  troopName : Option TroopType := none
  targetType : String := ""
  targetName : String := ""
  damage : Int := 0
  isCrit : Bool := false
  healAmount : Int := 0
  data : List (String × EVal) := []
deriving DecidableEq, Repr

/-- Persistent account data (`PlayerData` in `types.go`).  The
`TroopLevels` / `TowerLevels` Go maps (total over the registered kinds)
are modelled as total functions; `Password` and `LastLogin` are omitted
(never read by the embedded operations). -/
structure PlayerData where
  username : String
  level : Int
  exp : Int
  troopLevels : TroopType → Int
  towerLevels : TowerType → Int
  gamesPlayed : Int
  gamesWon : Int

/-- Game constants from `types.go`. -/
def GameDurationSeconds : Int := 180

def StartingMana : Int := 5

def MaxMana : Int := 10

def ManaRegenPerSecond : Int := 1

def WinEXP : Int := 30

def DrawEXP : Int := 10

/-- `StatScalePerLevel = 0.10` from `types.go`. -/
def StatScalePerLevel : ℚ := 1 / 10

/-- `EXPScalePerLevel = 0.10` from `types.go` (the comment next to it
says "10% increase in required EXP per level"). -/
def EXPScalePerLevel : ℚ := 1 / 10

/-- Modelled from the spec: the constant `BaseEXPRequired` is used by
`data.go` but its declaration is not among the provided sources; both
the spec (§4.3, base 100) and the comment in
`calculateRequiredEXP` ("Base EXP for level 2 is 100") fix it at 100. -/
def BaseEXPRequired : Int := 100

/-- `int(float64(baseStat) * (1.0 + float64(level-1)*StatScalePerLevel))`,
the stat-scaling expression of `data.go` (`scaleStatByLevel` without its
zero-base special case) and of the revive block in `engine.go`.  The
exact value of the product is `base * (9 + level) / 10`, and Go's
`int(...)` truncates toward zero, which is `Int.tdiv`; for the small
in-range values the engine feeds it, the `float64` computation agrees
with this exact form. -/
def scaleStat (base level : Int) : Int :=
  Int.tdiv (base * (9 + level)) 10

/-- The crit-boosted attack value `int(float64(atk) * 1.5)`.  `1.5` and
the product are exactly representable for the in-range values used, so
this is exactly `3 * atk / 2` truncated toward zero. -/
def critBoost (atk : Int) : Int :=
  Int.tdiv (3 * atk) 2

/-- The damage block shared verbatim by `executeAutoAttack`,
`executeCounterAttack` and `ExecuteAttack` in `engine.go`:

```
isCrit := false
attackDamage := attacker.ATK
if mode == Enhanced { if roll { isCrit = true; attackDamage = int(atk*1.5) } }
damage := attackDamage - target.DEF
if damage < 0 { damage = 0 }
```

The random draw `rand.Float64() < CRIT` is the boolean `critRoll`. -/
def rollDamage (mode : GameMode) (atk defense : Int) (critRoll : Bool) :
    Int × Bool :=
  let isCrit := mode = GameMode.enhanced ∧ critRoll = true
  let attackDamage := if mode = GameMode.enhanced ∧ critRoll = true then critBoost atk else atk
  let damage := attackDamage - defense
  (if damage < 0 then 0 else damage, decide isCrit)

/-- Typed errors for the `fmt.Errorf` returns of the engine; one
constructor per return site. -/
inductive EngineError where
  | playerNotFound
  | notYourTurn
  | deploymentLimit
  | troopNotAvailable
  | insufficientMana
  | noHealTarget
  | invalidPlayers
  | attackerNotFound
  | attackerDestroyed
  | kingTowerProtected
  | targetNotFound
  | targetDestroyed
  | endTurnWrongMode
  | nilDereference
deriving DecidableEq, Repr

/-- The engine (`GameEngine` in `engine.go`).  `eventQueue` and
`eventChan` are merged into `events`; the `dataManager`'s player
database is inlined as `playerDB`; `gameSpecs.TroopSpecs` is the total
function `troopSpecs` (tower specs are only read during room
initialization, which no claim touches). -/
structure Engine where
  gameState : GameState
  troopSpecs : TroopType → TroopSpec
  events : List CombatAction
  isRunning : Bool
  playerDB : List PlayerData

/-- `logEvent` / `broadcastAction`: append the action to the merged
event list. -/
def Engine.logEvent (e : Engine) (a : CombatAction) : Engine :=
  { e with events := e.events ++ [a] }

/-- `getPlayer` from `engine.go` (checks Player1 first). -/
def Engine.getPlayer? (e : Engine) (pid : String) : Option Player :=
  if e.gameState.player1.id = pid then some e.gameState.player1
  else if e.gameState.player2.id = pid then some e.gameState.player2
  else none

/-- `getOpponent` from `engine.go`. -/
def Engine.getOpponent? (e : Engine) (pid : String) : Option Player :=
  if e.gameState.player1.id = pid then some e.gameState.player2
  else if e.gameState.player2.id = pid then some e.gameState.player1
  else none

/-- Write a player slot back into the state.  In Go, `getPlayer` returns
a pointer into `ge.gameState`, so every mutation through it is a write
to the state; the embedding makes each such write explicit. -/
def Engine.setPlayer (e : Engine) (pid : String) (p : Player) : Engine :=
  if e.gameState.player1.id = pid then
    { e with gameState := { e.gameState with player1 := p } }
  else if e.gameState.player2.id = pid then
    { e with gameState := { e.gameState with player2 := p } }
  else e

/-- Mutation through the first matching troop pointer
(`for i := range player.Troops { if Name == name { ... break } }`). -/
def modifyFirstTroop : List Troop → TroopType → (Troop → Troop) → List Troop
  | [], _, _ => []
  | t :: rest, n, f =>
    if t.name = n then f t :: rest else t :: modifyFirstTroop rest n f

/-- The HP-restore written through the selected-troop pointer in
`SummonTroop`: `selectedTroop.HP = fullHP; selectedTroop.MaxHP = fullHP`. -/
def reviveUpdate (hp0 : Int) : Troop → Troop :=
  fun x => { x with hp := hp0, maxHP := hp0 }

/-- `calculateRequiredEXP` from `data.go`:

```
if level <= 1 { return BaseEXPRequired }
baseEXP := float64(BaseEXPRequired)
for i := 2; i < level; i++ { baseEXP *= (1.0 + EXPScalePerLevel) }
return int(baseEXP)
```

The loop runs `level - 2` times for `level ≥ 2`, so the result is
`int(100 * 1.1^(level-2))`; in exact arithmetic that is the truncation
of `100 * 11^(level-2) / 10^(level-2)` (nonnegative, so truncation is
floor division).  The `float64` loop agrees with the exact form on the
small levels the claims discuss. -/
def calculateRequiredEXP (level : Int) : Int :=
  if level ≤ 1 then BaseEXPRequired
  else Int.fdiv (BaseEXPRequired * 11 ^ (level - 2).toNat) (10 ^ (level - 2).toNat)

/-- The body of the `for` loop in `checkLevelUp` (`data.go`), run with a
fuel bound.  Each iteration: compute the EXP required to leave the
current level; stop if the player has less; otherwise increment the
level, subtract the requirement, and set every per-unit level to the
new account level.  `checkLevelUp` supplies fuel strictly larger than
the number of possible iterations, so the fuel never runs out
(`checkLevelUpFuel_complete`). -/
def checkLevelUpFuel : Nat → PlayerData → PlayerData
  | 0, p => p
  | fuel + 1, p =>
    let required := calculateRequiredEXP p.level
    if p.exp < required then p
    else
      checkLevelUpFuel fuel
        { p with level := p.level + 1, exp := p.exp - required,
                 troopLevels := fun _ => p.level + 1,
                 towerLevels := fun _ => p.level + 1 }

/-- `checkLevelUp` from `data.go` (the loop, without the returned
`leveledUp` flag, which only feeds a log line). -/
def checkLevelUp (p : PlayerData) : PlayerData :=
  checkLevelUpFuel (p.exp.toNat + 1) p

/-- `UpdatePlayerData` from `data.go`: find the profile by username
(first match), add the EXP delta, bump the game counters, then run the
level-up loop.  The `savePlayerDatabase` disk write and the
player-not-found error (ignored by the engine) do not change the
database. -/
def UpdatePlayerData : List PlayerData → String → Int → Bool → List PlayerData
  | [], _, _, _ => []
  | p :: rest, username, expGained, won =>
    if p.username = username then
      checkLevelUp
        { p with exp := p.exp + expGained,
                 gamesPlayed := p.gamesPlayed + 1,
                 gamesWon := p.gamesWon + (if won then 1 else 0) } :: rest
    else p :: UpdatePlayerData rest username expGained won

/-- `math.MaxInt32`, the initial `lowestHP` in `handleQueenSummon`. -/
def maxInt32 : Int := 2147483647

/-- The tower-selection loop of `handleQueenSummon`:

```
lowestHP := math.MaxInt32
for i := range player.Towers {
  if Towers[i].HP < lowestHP && Towers[i].HP > 0 { lowestHP, lowestTower = ... }
}
```

Tracks the running index, the best HP so far and the best
(index, tower) pair. -/
def lowestAliveAux : List Tower → Nat → Int → Option (Nat × Tower) → Option (Nat × Tower)
  | [], _, _, best => best
  | t :: rest, i, bestHP, best =>
    if t.hp < bestHP ∧ 0 < t.hp then lowestAliveAux rest (i + 1) t.hp (some (i, t))
    else lowestAliveAux rest (i + 1) bestHP best

/-- Entry point of the selection loop. -/
def lowestAlive (towers : List Tower) : Option (Nat × Tower) :=
  lowestAliveAux towers 0 maxInt32 none

/-- The heal-amount computation of `handleQueenSummon`:
`healAmount := 300; if HP+healAmount > MaxHP { healAmount = MaxHP−HP }`. -/
def healAmt (t : Tower) : Int :=
  if t.maxHP < t.hp + 300 then t.maxHP - t.hp else 300

/-- `handleQueenSummon` from `engine.go`: pick the caller's alive tower
with the lowest HP; heal it by 300 capped at `MaxHP`; emit the `HEAL`
event and return the heal action.  The `player == nil` case would be a
nil-pointer dereference in Go; it is unreachable from `SummonTroop`. -/
def handleQueenSummon (e : Engine) (playerID : String) :
    Engine × Except EngineError CombatAction :=
  match e.getPlayer? playerID with
  | none => (e, .error .playerNotFound)
  | some player =>
    match lowestAlive player.towers with
    | none => (e, .error .noHealTarget)
    | some (idx, lowestTower) =>
      let healAmount := healAmt lowestTower
      let healed := { lowestTower with hp := lowestTower.hp + healAmount }
      let player1 := { player with towers := player.towers.set idx healed }
      let e1 := e.setPlayer playerID player1
      let action : CombatAction :=
        { type := "heal", playerID := playerID, troopName := some .Queen,
          targetType := "tower", targetName := lowestTower.name.str,
          healAmount := healAmount,
          data := [("tower_hp", .int healed.hp), ("mana_left", .int player1.mana)] }
      let e2 := e1.logEvent
        { type := "HEAL", playerID := playerID,
          data := [("troop", .troop .Queen), ("target", .tower lowestTower.name),
                   ("heal_amount", .int healAmount), ("tower_hp", .int healed.hp)] }
      (e2, .ok action)

/-- `fullHP := int(float64(baseSpec.HP) * (1.0 + float64(playerLevel-1)*StatScalePerLevel))`
with `playerLevel := selectedTroop.Level`, from the revive block of
`SummonTroop`. -/
def fullHPFor (e : Engine) (tn : TroopType) (t : Troop) : Int :=
  scaleStat (e.troopSpecs tn).hp t.level

/-- The selected troop after the `SummonTroop` revive block, written
through the troop pointer: HP and MaxHP reset to the level-scaled full
HP. -/
def summonRevivedPlayer (e : Engine) (tn : TroopType) (player : Player) (t : Troop) : Player :=
  { player with troops := modifyFirstTroop player.troops tn (reviveUpdate (fullHPFor e tn t)) }

/-- The Enhanced-mode `TROOP_REVIVED` log entry of `SummonTroop`. -/
def reviveLogEnh (pid : String) (tn : TroopType) (oldHP fullHP : Int) : CombatAction :=
  { type := "TROOP_REVIVED", playerID := pid, troopName := some tn,
    data := [("troop", EVal.troop tn), ("old_hp", EVal.int oldHP),
             ("new_hp", EVal.int fullHP), ("max_hp", EVal.int fullHP)] }

/-- The Simple-mode `TROOP_REVIVED` log entry of `SummonTroop` (logged
on every summon, with no old-HP guard). -/
def reviveLogSim (pid : String) (tn : TroopType) (fullHP : Int) : CombatAction :=
  { type := "TROOP_REVIVED", playerID := pid, troopName := some tn,
    data := [("troop", EVal.troop tn), ("new_hp", EVal.int fullHP),
             ("max_hp", EVal.int fullHP)] }

/-- The engine after the `SummonTroop` revive block: the HP restore is
written to the state in both modes; `TROOP_REVIVED` is logged only when
`oldHP <= 0` in Enhanced mode but unconditionally in Simple mode. -/
def summonRevivedEngine (e : Engine) (pid : String) (tn : TroopType)
    (player : Player) (t : Troop) : Engine :=
  let e1 := e.setPlayer pid (summonRevivedPlayer e tn player t)
  if e.gameState.gameMode = GameMode.enhanced then
    if t.hp ≤ 0 then e1.logEvent (reviveLogEnh pid tn t.hp (fullHPFor e tn t)) else e1
  else e1.logEvent (reviveLogSim pid tn (fullHPFor e tn t))

/-- The caller after the mana deduction (Enhanced) and the deployment
increment (Simple) of `SummonTroop`. -/
def summonPaidPlayer (e : Engine) (tn : TroopType) (player : Player) (t : Troop) : Player :=
  let player1 := summonRevivedPlayer e tn player t
  let player2 :=
    if e.gameState.gameMode = GameMode.enhanced then
      { player1 with mana := player1.mana - t.mana }
    else player1
  if e.gameState.gameMode = GameMode.simple then
    { player2 with troopsDeployedThisTurn := player2.troopsDeployedThisTurn + 1 }
  else player2

/-- The `SUMMON` log entry of `SummonTroop` (`troop_hp` is the
pointer's post-revive HP, i.e. the full HP). -/
def summonLogEvent (pid : String) (tn : TroopType) (fullHP : Int) (p3 : Player) : CombatAction :=
  { type := "SUMMON", playerID := pid, troopName := some tn,
    data := [("troop", EVal.troop tn), ("troop_hp", EVal.int fullHP),
             ("mana_left", EVal.int p3.mana),
             ("troops_deployed_this_turn", EVal.int p3.troopsDeployedThisTurn)] }

/-- The summon action `SummonTroop` returns for non-Queen troops. -/
def summonRetAction (pid : String) (tn : TroopType) (fullHP : Int) (p3 : Player) : CombatAction :=
  { type := "summon", playerID := pid, troopName := some tn,
    data := [("mana_left", EVal.int p3.mana),
             ("troops_deployed_this_turn", EVal.int p3.troopsDeployedThisTurn),
             ("troop_hp", EVal.int fullHP)] }

/-- `SummonTroop` from `engine.go`, in source order: caller lookup,
Simple-mode turn check, Simple-mode deployment limit, troop lookup,
HP restore to level-scaled full HP (`summonRevivedEngine`; the mana
check comes *after* the restore and reads the unchanged mana), mana
deduction and Simple-mode deployment increment (`summonPaidPlayer`),
the Queen special path (rolling back only the deployment counter on
failure), and finally the `SUMMON` event.  The Enhanced-mode
`autoAttackSequence` goroutine and the Simple-mode Queen `autoEndTurn`
goroutine are separate operations (`executeAutoAttack`,
`autoEndTurn`). -/
def SummonTroop (e : Engine) (playerID : String) (troopName : TroopType) :
    Engine × Except EngineError CombatAction :=
  match e.getPlayer? playerID with
  | none => (e, .error .playerNotFound)
  | some player =>
    if e.gameState.gameMode = GameMode.simple ∧ e.gameState.currentTurn ≠ playerID then
      (e, .error .notYourTurn)
    else if e.gameState.gameMode = GameMode.simple ∧ 1 ≤ player.troopsDeployedThisTurn then
      (e, .error .deploymentLimit)
    else
      match player.troops.find? (fun t => t.name = troopName) with
      | none => (e, .error .troopNotAvailable)
      | some selectedTroop =>
        let e2 := summonRevivedEngine e playerID troopName player selectedTroop
        if e.gameState.gameMode = GameMode.enhanced ∧ player.mana < selectedTroop.mana then
          (e2, .error .insufficientMana)
        else
          let player3 := summonPaidPlayer e troopName player selectedTroop
          let e3 := e2.setPlayer playerID player3
          if troopName = TroopType.Queen then
            match handleQueenSummon e3 playerID with
            | (e4, .error err) =>
              let e5 :=
                if e.gameState.gameMode = GameMode.simple then
                  match e4.getPlayer? playerID with
                  | some p =>
                    e4.setPlayer playerID
                      { p with troopsDeployedThisTurn := p.troopsDeployedThisTurn - 1 }
                  | none => e4
                else e4
              (e5, .error err)
            | (e4, .ok action) => (e4, .ok action)
          else
            (e3.logEvent (summonLogEvent playerID troopName (fullHPFor e troopName selectedTroop) player3),
             .ok (summonRetAction playerID troopName (fullHPFor e troopName selectedTroop) player3))

/-- `switchTurn` from `engine.go`: in Simple mode reset both deployment
counters, then swap `currentTurn`. -/
def switchTurn (e : Engine) : Engine :=
  let e1 :=
    if e.gameState.gameMode = GameMode.simple then
      { e with gameState := { e.gameState with
          player1 := { e.gameState.player1 with troopsDeployedThisTurn := 0 },
          player2 := { e.gameState.player2 with troopsDeployedThisTurn := 0 } } }
    else e
  if e1.gameState.currentTurn = e1.gameState.player1.id then
    { e1 with gameState := { e1.gameState with currentTurn := e1.gameState.player2.id } }
  else
    { e1 with gameState := { e1.gameState with currentTurn := e1.gameState.player1.id } }

/-- `EndTurn` from `engine.go` (Simple mode only). -/
def EndTurn (e : Engine) (playerID : String) : Engine × Except EngineError Unit :=
  if e.gameState.gameMode ≠ GameMode.simple then (e, .error .endTurnWrongMode)
  else if e.gameState.currentTurn ≠ playerID then (e, .error .notYourTurn)
  else
    let e1 := switchTurn e
    let a : CombatAction :=
      { type := "TURN_END", playerID := playerID,
        data := [("next_turn", .str e1.gameState.currentTurn)] }
    (e1.logEvent a, .ok ())

/-- `autoEndTurn` from `engine.go` (the 1-second deferred turn advance
after a Simple-mode Queen summon).  It logs a `TURN_END` event and also
broadcasts an identical `TURN_END` action. -/
def autoEndTurn (e : Engine) (playerID : String) : Engine :=
  if e.gameState.gameMode ≠ GameMode.simple then e
  else if e.gameState.currentTurn ≠ playerID then e
  else
    let e1 := switchTurn e
    let a : CombatAction :=
      { type := "TURN_END", playerID := playerID,
        data := [("next_turn", .str e1.gameState.currentTurn)] }
    (e1.logEvent a).logEvent a

/-- `endGame` from `engine.go`: stop the engine, set the status to
Finished, log `GAME_END`. -/
def endGame (e : Engine) : Engine :=
  let e1 := { e with isRunning := false,
                     gameState := { e.gameState with status := GameStatus.finished } }
  let a : CombatAction :=
    { type := "GAME_END", playerID := e1.gameState.winner,
      data := [("towers_p1", .int e1.gameState.towersKilledP1),
               ("towers_p2", .int e1.gameState.towersKilledP2)] }
  e1.logEvent a

/-- `checkLevelUp`-style helper: `checkWinConditions` from `engine.go`.
A King Tower at exactly 0 HP loses the game for its owner; Player1's
towers are checked first.  Returns the (possibly winner-updated) engine
and whether the game should end. -/
def checkWinConditions (e : Engine) : Engine × Bool :=
  if e.gameState.player1.towers.any
      (fun t => decide (t.name = TowerType.KingTower ∧ t.hp = 0)) then
    ({ e with gameState := { e.gameState with winner := e.gameState.player2.id } }, true)
  else if e.gameState.player2.towers.any
      (fun t => decide (t.name = TowerType.KingTower ∧ t.hp = 0)) then
    ({ e with gameState := { e.gameState with winner := e.gameState.player1.id } }, true)
  else (e, false)

/-- `awardGameEndEXP` from `engine.go`.  `winnerEXP` is `DrawEXP` on a
draw and `WinEXP` otherwise; the assignment `loserEXP = LoseEXP` is
commented out in the source, so `loserEXP` keeps its zero value on a
decided game.  Both in-game EXP totals get `loserEXP`, the winner gets
the difference on top, and `UpdatePlayerData` writes the final per-side
amounts back to the player store. -/
def awardGameEndEXP (e : Engine) : Engine :=
  let winnerEXP := if e.gameState.winner = "draw" then DrawEXP else WinEXP
  let loserEXP := if e.gameState.winner = "draw" then DrawEXP else 0
  let p1 := { e.gameState.player1 with exp := e.gameState.player1.exp + loserEXP }
  let p2 := { e.gameState.player2 with exp := e.gameState.player2.exp + loserEXP }
  let pair :=
    if e.gameState.winner = p1.id then
      ({ p1 with exp := p1.exp + (winnerEXP - loserEXP) }, p2)
    else if e.gameState.winner = p2.id then
      (p1, { p2 with exp := p2.exp + (winnerEXP - loserEXP) })
    else (p1, p2)
  let isWinner1 : Bool := e.gameState.winner = e.gameState.player1.id
  let isWinner2 : Bool := e.gameState.winner = e.gameState.player2.id
  let finalEXP1 := if isWinner1 then winnerEXP else loserEXP
  let finalEXP2 := if ¬ isWinner1 ∧ isWinner2 then winnerEXP else loserEXP
  let db1 := UpdatePlayerData e.playerDB e.gameState.player1.username finalEXP1 isWinner1
  let db2 := UpdatePlayerData db1 e.gameState.player2.username finalEXP2 isWinner2
  let e1 := { e with gameState := { e.gameState with player1 := pair.1, player2 := pair.2 },
                     playerDB := db2 }
  let a : CombatAction :=
    { type := "GAME_END_EXP",
      data := [("player1_exp", .int pair.1.exp), ("player2_exp", .int pair.2.exp),
               ("winner", .str e.gameState.winner)] }
  e1.logEvent a

/-- `Surrender` from `engine.go`: the opponent of the surrendering
caller wins (any caller id other than Player1's — even one belonging to
neither player — makes Player1 the winner); end-of-game EXP is awarded,
the game is finalized, and `SURRENDER` is logged.  The function checks
nothing and only ever returns `nil`. -/
def Surrender (e : Engine) (playerID : String) : Engine × Except EngineError Unit :=
  let winner :=
    if playerID = e.gameState.player1.id then e.gameState.player2.id
    else e.gameState.player1.id
  let e1 := { e with gameState := { e.gameState with winner := winner } }
  let e2 := awardGameEndEXP e1
  let e3 := endGame e2
  let a : CombatAction :=
    { type := "SURRENDER", playerID := playerID,
      data := [("winner", .str winner), ("reason", .str "opponent_surrendered")] }
  (e3.logEvent a, .ok ())

/-- `awardEXPForDamage` from `engine.go`: `max(1, damage / 50)` EXP to
the in-game total of the given player (Go integer division truncates
toward zero). -/
def awardEXPForDamage (e : Engine) (playerID : String) (damage : Int)
    (targetType : String) : Engine :=
  let baseEXP := Int.tdiv damage 50
  let baseEXP := if baseEXP < 1 then 1 else baseEXP
  match e.getPlayer? playerID with
  | none => e
  | some p =>
    let e1 := e.setPlayer playerID { p with exp := p.exp + baseEXP }
    let a : CombatAction :=
      { type := "EXP_GAINED", playerID := playerID,
        data := [("amount", .int baseEXP), ("target_type", .str targetType)] }
    e1.logEvent a

/-- `CalculateDestructionEXP` (tower branch) from `data.go`, identical
to the `switch` in `awardEXPForDestruction`: King Tower 200, guard
towers 100. -/
def towerDestructionEXP : TowerType → Int
  | .KingTower => 200
  | .GuardTower1 => 100
  | .GuardTower2 => 100

/-- `awardEXPForDestruction` from `engine.go`, tower branch. -/
def awardEXPForDestructionTower (e : Engine) (playerID : String)
    (towerName : TowerType) : Engine :=
  let expAmount := towerDestructionEXP towerName
  match e.getPlayer? playerID with
  | none => e
  | some p =>
    let e1 := e.setPlayer playerID { p with exp := p.exp + expAmount }
    let a : CombatAction :=
      { type := "EXP_GAINED", playerID := playerID,
        data := [("amount", .int expAmount), ("target_type", .str "tower")] }
    e1.logEvent a

/-- `awardEXPForDestruction` from `engine.go`, troop branch: the
destroyed troop's spec `EXP`, only when positive. -/
def awardEXPForDestructionTroop (e : Engine) (playerID : String)
    (troopName : TroopType) : Engine :=
  let expAmount := (e.troopSpecs troopName).exp
  if 0 < expAmount then
    match e.getPlayer? playerID with
    | none => e
    | some p =>
      let e1 := e.setPlayer playerID { p with exp := p.exp + expAmount }
      let a : CombatAction :=
        { type := "EXP_GAINED", playerID := playerID,
          data := [("amount", .int expAmount), ("target_type", .str "troop")] }
      e1.logEvent a
  else e

/-- `handleTowerDestroyed` from `engine.go`: clear the tower's
`IsActive` flag (mutation through the tower pointer, reproduced at the
given index), bump the owner's `TowersKilled` counter, log
`TOWER_DESTROYED`. -/
def handleTowerDestroyed (e : Engine) (ownerID : String) (idx : Nat)
    (towerName : TowerType) : Engine :=
  let e1 :=
    match e.getPlayer? ownerID with
    | none => e
    | some p =>
      match p.towers.get? idx with
      | some tw => e.setPlayer ownerID { p with towers := p.towers.set idx { tw with isActive := false } }
      | none => e
  let e2 :=
    if ownerID = e1.gameState.player1.id then
      { e1 with gameState := { e1.gameState with towersKilledP1 := e1.gameState.towersKilledP1 + 1 } }
    else
      { e1 with gameState := { e1.gameState with towersKilledP2 := e1.gameState.towersKilledP2 + 1 } }
  let a : CombatAction :=
    { type := "TOWER_DESTROYED", data := [("tower_name", .tower towerName)] }
  e2.logEvent a

/-- The guard-tower-alive count used by `validateAttackTargetUpdated`
and `executeAutoAttack`. -/
def guardAliveCount (towers : List Tower) : Int :=
  towers.foldl
    (fun n t =>
      if (t.name = TowerType.GuardTower1 ∨ t.name = TowerType.GuardTower2) ∧ 0 < t.hp
      then n + 1 else n) 0

/-- `validateAttackTargetUpdated` from `engine.go`: only for tower
targets; attacking "King Tower" while both guard towers are alive is
rejected. -/
def validateAttackTargetUpdated (opponent : Player) (targetType targetName : String) :
    Option EngineError :=
  if targetType ≠ "tower" then none
  else if targetName = "King Tower" ∧ guardAliveCount opponent.towers = 2 then
    some .kingTowerProtected
  else none

/-- `ExecuteAttack` from `engine.go` (manual attack): caller/opponent
lookup, attacker lookup and liveness, Simple-mode king gating, target
tower lookup (first name match) and liveness, the shared damage block
(`rollDamage`), HP clamp at 0, damage EXP, destruction handling, the
`attack` action, and the synchronous win check.  A non-"tower"
`targetType` leaves the Go `targetTower` pointer nil and the damage line
dereferences it: that runtime panic is the `nilDereference` error.  The
Simple-mode deferred counter-attack is the separate operation
`executeCounterAttack`. -/
def ExecuteAttack (e : Engine) (playerID : String) (attackerName : TroopType)
    (targetType targetName : String) (critRoll : Bool) :
    Engine × Except EngineError CombatAction :=
  match e.getPlayer? playerID, e.getOpponent? playerID with
  | some player, some opponent =>
    (match player.troops.find? (fun t => t.name = attackerName) with
    | none => (e, .error .attackerNotFound)
    | some attacker =>
      if attacker.hp ≤ 0 then (e, .error .attackerDestroyed)
      else
        match (if e.gameState.gameMode = GameMode.simple then
                 validateAttackTargetUpdated opponent targetType targetName
               else none) with
        | some err => (e, .error err)
        | none =>
          if targetType ≠ "tower" then (e, .error .nilDereference)
          else
            match opponent.towers.enum.find? (fun it => it.2.name.str = targetName) with
            | none => (e, .error .targetNotFound)
            | some (idx, targetTower) =>
              if targetTower.hp ≤ 0 then (e, .error .targetDestroyed)
              else
                let dmg := rollDamage e.gameState.gameMode attacker.atk targetTower.defense critRoll
                let damage := dmg.1
                let isCrit := dmg.2
                let oldHP := targetTower.hp
                let newHP := if oldHP - damage < 0 then 0 else oldHP - damage
                let damaged := { targetTower with hp := newHP }
                let e1 := e.setPlayer opponent.id { opponent with towers := opponent.towers.set idx damaged }
                let e2 := if 0 < damage then awardEXPForDamage e1 playerID damage "tower" else e1
                let towerDestroyed := newHP = 0 ∧ 0 < oldHP
                let e3 :=
                  if newHP = 0 ∧ 0 < oldHP then
                    handleTowerDestroyed
                      (awardEXPForDestructionTower e2 playerID targetTower.name)
                      opponent.id idx targetTower.name
                  else e2
                let action : CombatAction :=
                  { type := "attack", playerID := playerID, troopName := some attackerName,
                    targetType := targetType, targetName := targetName,
                    damage := damage, isCrit := isCrit,
                    data := [("target_hp", .int newHP), ("old_hp", .int oldHP),
                             ("tower_destroyed", .bool (decide towerDestroyed))] }
                let win := checkWinConditions e3
                let e4 := if win.2 then endGame win.1 else win.1
                (e4, .ok action))
  | _, _ => (e, .error .invalidPlayers)

/-- The guard-tower target-selection loop of `executeAutoAttack`:
first alive guard tower with strictly lower HP than the best so far. -/
def guardTargetAux : List Tower → Nat → Option (Nat × Tower) → Option (Nat × Tower)
  | [], _, best => best
  | t :: rest, i, none =>
    if (t.name = TowerType.GuardTower1 ∨ t.name = TowerType.GuardTower2) ∧ 0 < t.hp then
      guardTargetAux rest (i + 1) (some (i, t))
    else guardTargetAux rest (i + 1) none
  | t :: rest, i, some b =>
    if (t.name = TowerType.GuardTower1 ∨ t.name = TowerType.GuardTower2) ∧ 0 < t.hp ∧
        t.hp < b.2.hp then
      guardTargetAux rest (i + 1) (some (i, t))
    else guardTargetAux rest (i + 1) (some b)

/-- Auto-attack target selection from `executeAutoAttack`: when no
guard tower is alive, the first alive King Tower; otherwise the alive
guard tower with the lowest HP (first index on ties). -/
def autoTarget (towers : List Tower) : Option (Nat × Tower) :=
  if guardAliveCount towers = 0 then
    towers.enum.find? (fun it => decide (it.2.name = TowerType.KingTower ∧ 0 < it.2.hp))
  else guardTargetAux towers 0 none

/-- `executeAutoAttack` from `engine.go` (the 500 ms deferred attack of
a summoned troop in Enhanced mode).  Returns `none` (no action
broadcast) when the attacker is missing/dead or no target exists.  On a
kill it awards destruction EXP, broadcasts `EXP_GAINED`, logs and
broadcasts `TOWER_DESTROYED`, runs `handleTowerDestroyed` and the win
check. -/
def executeAutoAttack (e : Engine) (playerID : String) (troopName : TroopType)
    (critRoll : Bool) : Engine × Option CombatAction :=
  match e.getPlayer? playerID, e.getOpponent? playerID with
  | some player, some opponent =>
    (match player.troops.find? (fun t => t.name = troopName) with
    | none => (e, none)
    | some attacker =>
      if attacker.hp ≤ 0 then (e, none)
      else
        match autoTarget opponent.towers with
        | none => (e, none)
        | some (idx, targetTower) =>
          let dmg := rollDamage e.gameState.gameMode attacker.atk targetTower.defense critRoll
          let damage := dmg.1
          let isCrit := dmg.2
          let oldHP := targetTower.hp
          let newHP := if oldHP - damage < 0 then 0 else oldHP - damage
          let damaged := { targetTower with hp := newHP }
          let e1 := e.setPlayer opponent.id { opponent with towers := opponent.towers.set idx damaged }
          let e2 := if 0 < damage then awardEXPForDamage e1 playerID damage "tower" else e1
          let towerDestroyed := newHP = 0 ∧ 0 < oldHP
          let e3 :=
            if newHP = 0 ∧ 0 < oldHP then
              let ea := awardEXPForDestructionTower e2 playerID targetTower.name
              let aExp : CombatAction :=
                { type := "EXP_GAINED", playerID := playerID,
                  data := [("amount", .int (towerDestructionEXP targetTower.name))] }
              let eb := ea.logEvent aExp
              let aLog : CombatAction :=
                { type := "TOWER_DESTROYED",
                  data := [("tower_name", .tower targetTower.name),
                           ("final_damage", .int damage)] }
              let ec := eb.logEvent aLog
              let aDestroy : CombatAction :=
                { type := "TOWER_DESTROYED", playerID := playerID,
                  troopName := some troopName, targetType := "tower",
                  targetName := targetTower.name.str, damage := damage }
              let ed := ec.logEvent aDestroy
              let ee := handleTowerDestroyed ed opponent.id idx targetTower.name
              let win := checkWinConditions ee
              if win.2 then endGame win.1 else win.1
            else e2
          let action : CombatAction :=
            { type := "attack", playerID := playerID, troopName := some troopName,
              targetType := "tower", targetName := targetTower.name.str,
              damage := damage, isCrit := isCrit,
              data := [("target_hp", .int newHP), ("old_hp", .int oldHP),
                       ("tower_destroyed", .bool (decide towerDestroyed))] }
          (e3, some action))
  | _, _ => (e, none)

/-- `executeCounterAttack` from `engine.go` (the 2 s deferred strike by
the opponent's first alive tower against the troop that attacked).  The
Queen is never counter-attacked; a dead or missing troop is skipped. -/
def executeCounterAttack (e : Engine) (playerID : String) (troopName : TroopType)
    (critRoll : Bool) : Engine × Option CombatAction :=
  match e.getPlayer? playerID, e.getOpponent? playerID with
  | some player, some opponent =>
    (match player.troops.find? (fun t => t.name = troopName) with
    | none => (e, none)
    | some targetTroop =>
      if targetTroop.name = TroopType.Queen then (e, none)
      else if targetTroop.hp ≤ 0 then (e, none)
      else
        match opponent.towers.find? (fun t => decide (0 < t.hp)) with
        | none => (e, none)
        | some attackingTower =>
          let dmg := rollDamage e.gameState.gameMode attackingTower.atk targetTroop.defense critRoll
          let damage := dmg.1
          let isCrit := dmg.2
          let oldHP := targetTroop.hp
          let newHP := if oldHP - damage < 0 then 0 else oldHP - damage
          let player1 := { player with
            troops := modifyFirstTroop player.troops troopName (fun t => { t with hp := newHP }) }
          let e1 := e.setPlayer playerID player1
          let e2 := if 0 < damage then awardEXPForDamage e1 opponent.id damage "troop" else e1
          let e3 :=
            if newHP = 0 ∧ 0 < oldHP then
              let ea := awardEXPForDestructionTroop e2 opponent.id targetTroop.name
              let aLog : CombatAction :=
                { type := "TROOP_DESTROYED",
                  data := [("troop_name", .troop targetTroop.name),
                           ("final_damage", .int damage)] }
              let eb := ea.logEvent aLog
              let aDestroy : CombatAction :=
                { type := "TROOP_DESTROYED", playerID := opponent.id,
                  targetType := "troop", targetName := "troop", damage := damage }
              eb.logEvent aDestroy
            else e2
          let aCounter : CombatAction :=
            { type := "COUNTER_ATTACK", playerID := opponent.id,
              data := [("damage", .int damage), ("target_hp", .int newHP),
                       ("old_hp", .int oldHP), ("is_crit", .bool isCrit)] }
          let e4 := e3.logEvent aCounter
          let action : CombatAction :=
            { type := "attack", playerID := opponent.id,
              targetType := "troop", targetName := "troop",
              damage := damage, isCrit := isCrit,
              data := [("target_hp", .int newHP), ("old_hp", .int oldHP),
                       ("is_counter", .bool true)] }
          (e4, some action))
  | _, _ => (e, none)

/-- Destroyed-tower count used by `endGameByTimeout` (`HP <= 0`). -/
def countDestroyed (towers : List Tower) : Int :=
  towers.foldl (fun n t => if t.hp ≤ 0 then n + 1 else n) 0

/-- King-Tower-alive scan used by `endGameByTimeout`. -/
def kingAlive (towers : List Tower) : Bool :=
  towers.any (fun t => decide (t.name = TowerType.KingTower ∧ 0 < t.hp))

/-- `endGameByTimeout` from `engine.go`: only if the game is still
running; the winner is decided by King-Tower survival first — exactly
one alive King wins for its owner, both Kings dead is an immediate
draw — and only with both Kings alive by comparing how many towers each
player lost (fewer losses wins, equality is a draw).  Then end-of-game
EXP, a broadcast `GAME_END`, and `endGame`. -/
def endGameByTimeout (e : Engine) : Engine :=
  if ¬ e.isRunning then e
  else
    let p1destroyed := countDestroyed e.gameState.player1.towers
    let p2destroyed := countDestroyed e.gameState.player2.towers
    let p1KingAlive := kingAlive e.gameState.player1.towers
    let p2KingAlive := kingAlive e.gameState.player2.towers
    let winner :=
      if ¬ p1KingAlive ∧ p2KingAlive then e.gameState.player2.id
      else if ¬ p2KingAlive ∧ p1KingAlive then e.gameState.player1.id
      else if ¬ p1KingAlive ∧ ¬ p2KingAlive then "draw"
      else if p1destroyed < p2destroyed then e.gameState.player1.id
      else if p2destroyed < p1destroyed then e.gameState.player2.id
      else "draw"
    let e1 := { e with gameState := { e.gameState with winner := winner } }
    let e2 := awardGameEndEXP e1
    let a : CombatAction :=
      { type := "GAME_END",
        data := [("winner", .str winner), ("reason", .str "timeout"),
                 ("player1_towers", .int p1destroyed), ("player2_towers", .int p2destroyed)] }
    endGame (e2.logEvent a)

/-- One iteration of the 1 Hz `manaRegeneration` loop from `engine.go`:
regenerate each player's mana by `ManaRegenPerSecond` capped at
`MaxMana`, decrement `timeLeft`, broadcast `MANA_UPDATE` when a mana
value changed, and fire the timeout path when the clock reaches 0. -/
def manaTick (e : Engine) : Engine :=
  if ¬ e.isRunning then e
  else
    let regen : Player → Player := fun p =>
      if p.mana < MaxMana then
        let m := p.mana + ManaRegenPerSecond
        { p with mana := if MaxMana < m then MaxMana else m }
      else p
    let p1 := regen e.gameState.player1
    let p2 := regen e.gameState.player2
    let changed := p1.mana ≠ e.gameState.player1.mana ∨ p2.mana ≠ e.gameState.player2.mana
    let e1 := { e with gameState := { e.gameState with
                  player1 := p1, player2 := p2, timeLeft := e.gameState.timeLeft - 1 } }
    let a : CombatAction :=
      { type := "MANA_UPDATE",
        data := [("player1_mana", .int p1.mana), ("player2_mana", .int p2.mana),
                 ("time_left", .int e1.gameState.timeLeft)] }
    let e2 := if changed then e1.logEvent a else e1
    if e2.gameState.timeLeft ≤ 0 then endGameByTimeout e2 else e2

/-- `StartGame` from `engine.go`: move to Active and mark the engine
running (the mode-specific logging and the Enhanced-mode timers are
modelled by the `GAME_START` event and by the `manaTick` / timeout
operations). -/
def StartGame (e : Engine) : Engine :=
  let e1 := { e with isRunning := true,
                     gameState := { e.gameState with status := GameStatus.active } }
  e1.logEvent { type := "GAME_START" }

/-- Whether a Go `(value, error)` return carries no error. -/
def isOkE {α : Type} : Except EngineError α → Bool
  | .ok _ => true
  | .error _ => false

/-- The error component of a Go `(value, error)` return. -/
def errE {α : Type} : Except EngineError α → Option EngineError
  | .ok _ => none
  | .error err => some err

/-- Replace only the room status of an engine state. -/
def withStatus (e : Engine) (s : GameStatus) : Engine :=
  { e with gameState := { e.gameState with status := s } }

/-- The crit damage the claim/spec formula predicts: the integer part of
`1.5 × max(0, ATK − DEF)` (nonnegative, so truncation toward zero). -/
def claimedCritDamage (atk defense : Int) : Int :=
  Int.tdiv (3 * max 0 (atk - defense)) 2

/-- The level-up requirement the spec fixes:
`requiredEXP(L) = round(100 × 1.15^(L−1))`, with
`round(x) = ⌊x + 1/2⌋`; in exact arithmetic,
`100 × (23/20)^k + 1/2 = (200·23^k + 20^k) / (2·20^k)`. -/
def requiredEXPSpec (level : Int) : Int :=
  Int.fdiv (200 * 23 ^ (level - 1).toNat + 20 ^ (level - 1).toNat)
    (2 * 20 ^ (level - 1).toNat)

/-- The timeout winner rule exactly as the claim states it: (1) exactly
one King Tower alive → its owner wins; (2) otherwise fewer tower losses
wins; (3) equal losses → draw. -/
def timeoutWinnerClaim (p1id p2id : String) (p1T p2T : List Tower) : String :=
  let k1 := kingAlive p1T
  let k2 := kingAlive p2T
  if k1 = true ∧ k2 = false then p1id
  else if k2 = true ∧ k1 = false then p2id
  else if countDestroyed p1T < countDestroyed p2T then p1id
  else if countDestroyed p2T < countDestroyed p1T then p2id
  else "draw"

/-- The timeout winner rule as the code actually decides it: (1)
exactly one King Tower alive → its owner wins; (2) both Kings destroyed
→ draw, regardless of tower counts; (3) both Kings alive → fewer tower
losses wins, equal → draw. -/
def timeoutWinnerAmended (p1id p2id : String) (p1T p2T : List Tower) : String :=
  let k1 := kingAlive p1T
  let k2 := kingAlive p2T
  if k1 = true ∧ k2 = false then p1id
  else if k2 = true ∧ k1 = false then p2id
  else if k1 = false ∧ k2 = false then "draw"
  else if countDestroyed p1T < countDestroyed p2T then p1id
  else if countDestroyed p2T < countDestroyed p1T then p2id
  else "draw"

/-- Count of `TROOP_REVIVED` events in an event list. -/
def reviveCount (l : List CombatAction) : Nat :=
  l.countP (fun a => a.type == "TROOP_REVIVED")

/-- Count of `HEAL` events in an event list. -/
def healCount (l : List CombatAction) : Nat :=
  l.countP (fun a => a.type == "HEAL")

/-- Player 1's deploy-counter. -/
def dep1 (e : Engine) : Int :=
  e.gameState.player1.troopsDeployedThisTurn

/-- Player 2's deploy-counter. -/
def dep2 (e : Engine) : Int :=
  e.gameState.player2.troopsDeployedThisTurn

/-- Both deploy-counters are 0 or 1. -/
def DeployedOk (e : Engine) : Prop :=
  (dep1 e = 0 ∨ dep1 e = 1) ∧ (dep2 e = 0 ∨ dep2 e = 1)

/-- One engine transition: any operation a session task or timer task
can apply, with arbitrary arguments and an arbitrary crit-roll
outcome. -/
inductive Step : Engine → Engine → Prop where
  | start (e : Engine) : Step e (StartGame e)
  | summon (e : Engine) (pid : String) (tn : TroopType) : Step e (SummonTroop e pid tn).1
  | attack (e : Engine) (pid : String) (an : TroopType) (tt tname : String) (roll : Bool) :
      Step e (ExecuteAttack e pid an tt tname roll).1
  | autoAtk (e : Engine) (pid : String) (tn : TroopType) (roll : Bool) :
      Step e (executeAutoAttack e pid tn roll).1
  | counter (e : Engine) (pid : String) (tn : TroopType) (roll : Bool) :
      Step e (executeCounterAttack e pid tn roll).1
  | turnEnd (e : Engine) (pid : String) : Step e (EndTurn e pid).1
  | autoTurnEnd (e : Engine) (pid : String) : Step e (autoEndTurn e pid)
  | giveUp (e : Engine) (pid : String) : Step e (Surrender e pid).1
  | tick (e : Engine) : Step e (manaTick e)
  | timeout (e : Engine) : Step e (endGameByTimeout e)

/-- Reachability: the reflexive-transitive closure of `Step`. -/
def Reachable : Engine → Engine → Prop :=
  Relation.ReflTransGen Step

/-! ### Concrete test fixtures (not part of the source translation) -/

/-- A fixed spec table for the concrete scenarios.  The Queen has base
HP 0 (she is a caster). -/
def testSpecs : TroopType → TroopSpec := fun t =>
  match t with
  | .Queen => { hp := 0, atk := 0, defense := 0, crit := 0, mana := 5, exp := 30 }
  | _ => { hp := 100, atk := 150, defense := 30, crit := 1 / 10, mana := 3, exp := 5 }

/-- A level-1 Pawn with ATK 150 at the given HP. -/
def pawnAt (hp : Int) : Troop :=
  { name := .Pawn, hp := hp, maxHP := 100, atk := 150, defense := 30, crit := 1 / 10,
    mana := 3, exp := 5, level := 1 }

/-- A level-1 Queen (base HP 0). -/
def queenTroop : Troop :=
  { name := .Queen, hp := 0, maxHP := 0, atk := 0, defense := 0, crit := 0,
    mana := 5, exp := 30, level := 1 }

/-- A tower fixture. -/
def towerOf (n : TowerType) (hp maxHP defense : Int) : Tower :=
  { name := n, hp := hp, maxHP := maxHP, atk := 80, defense := defense, crit := 1 / 10,
    exp := 100, level := 1, isActive := true }

/-- A player fixture. -/
def playerOf (pid uname : String) (mana : Int) (troops : List Troop)
    (towers : List Tower) : Player :=
  { id := pid, username := uname, level := 1, exp := 0, mana := mana, maxMana := 10,
    troops := troops, towers := towers, troopsDeployedThisTurn := 0 }

/-- An engine fixture. -/
def engineOf (mode : GameMode) (status : GameStatus) (p1 p2 : Player) (turn : String)
    (db : List PlayerData) : Engine :=
  { gameState := { gameMode := mode, status := status, player1 := p1, player2 := p2,
                   currentTurn := turn, timeLeft := 180, winner := "",
                   towersKilledP1 := 0, towersKilledP2 := 0 },
    troopSpecs := testSpecs, events := [], isRunning := true, playerDB := db }

/-- Standard tower rows: King 2000 HP, guards 1000 HP; Guard Tower 1
has DEF 100 and Guard Tower 2 has DEF 200 (for the negative-margin
case). -/
def stdTowers : List Tower :=
  [towerOf .KingTower 2000 2000 60, towerOf .GuardTower1 1000 1000 100,
   towerOf .GuardTower2 1000 1000 200]

/-- A stored profile fixture (per-unit levels all at the account
level). -/
def profileOf (uname : String) (level exp : Int) : PlayerData :=
  { username := uname, level := level, exp := exp,
    troopLevels := fun _ => level, towerLevels := fun _ => level,
    gamesPlayed := 0, gamesWon := 0 }

/-- Enhanced-mode engine for the damage scenarios: P1 owns a healthy
Pawn, P2 owns the standard towers. -/
def eDamage : Engine :=
  engineOf .enhanced .active
    (playerOf "p1" "alice" 10 [pawnAt 100] stdTowers)
    (playerOf "p2" "bob" 10 [pawnAt 100] stdTowers)
    "p1" []

/-- Simple-mode engine for the damage scenarios. -/
def eDamageS : Engine :=
  engineOf .simple .active
    (playerOf "p1" "alice" 10 [pawnAt 100] stdTowers)
    (playerOf "p2" "bob" 10 [pawnAt 100] stdTowers)
    "p1" []

/-- A decided game (winner P1) with both profiles stored, for the
end-of-game EXP scenario. -/
def eDecided : Engine :=
  { engineOf .enhanced .active
      (playerOf "p1" "alice" 10 [pawnAt 100] stdTowers)
      (playerOf "p2" "bob" 10 [pawnAt 100] stdTowers)
      "p1" [profileOf "alice" 1 0, profileOf "bob" 1 0] with
    gameState := { (engineOf .enhanced .active
      (playerOf "p1" "alice" 10 [pawnAt 100] stdTowers)
      (playerOf "p2" "bob" 10 [pawnAt 100] stdTowers)
      "p1" []).gameState with winner := "p1" } }

/-- The same game ended in a draw. -/
def eDraw : Engine :=
  { eDecided with gameState := { eDecided.gameState with winner := "draw" } }

/-- A Finished Simple-mode game where it is P1's turn, for the
status-check scenario. -/
def eFinished : Engine :=
  engineOf .simple .finished
    (playerOf "p1" "alice" 10 [pawnAt 100] stdTowers)
    (playerOf "p2" "bob" 10 [pawnAt 100] stdTowers)
    "p1" []

/-- Enhanced-mode engine where P1 has no mana and a damaged Pawn, for
the failed-summon rollback scenario. -/
def eNoMana : Engine :=
  engineOf .enhanced .active
    (playerOf "p1" "alice" 0 [pawnAt 10] stdTowers)
    (playerOf "p2" "bob" 10 [pawnAt 100] stdTowers)
    "p1" []

/-- Enhanced-mode engine where P1 holds the Queen but has no alive
tower, for the `NO_HEAL_TARGET` scenario. -/
def eNoTowers : Engine :=
  engineOf .enhanced .active
    (playerOf "p1" "alice" 10 [queenTroop]
      [towerOf .KingTower 0 2000 60, towerOf .GuardTower1 0 1000 100,
       towerOf .GuardTower2 0 1000 100])
    (playerOf "p2" "bob" 10 [pawnAt 100] stdTowers)
    "p1" []

/-- Timeout scenario with both King Towers destroyed and unequal tower
losses: P1 lost all three towers, P2 lost only the King. -/
def eBothKingsDead : Engine :=
  engineOf .enhanced .active
    (playerOf "p1" "alice" 10 [pawnAt 100]
      [towerOf .KingTower 0 2000 60, towerOf .GuardTower1 0 1000 100,
       towerOf .GuardTower2 0 1000 100])
    (playerOf "p2" "bob" 10 [pawnAt 100]
      [towerOf .KingTower 0 2000 60, towerOf .GuardTower1 500 1000 100,
       towerOf .GuardTower2 600 1000 100])
    "p1" []

/-- The player of the spec's Queen-heal scenario: towers at HP
2000/400/150 with maxHP 2000/1000/1000. -/
def pQH : Player :=
  playerOf "p1" "alice" 10 [queenTroop]
    [towerOf .KingTower 2000 2000 60, towerOf .GuardTower1 400 1000 100,
     towerOf .GuardTower2 150 1000 100]

/-- The spec's Queen-heal scenario. -/
def eQueenHeal : Engine :=
  engineOf .enhanced .active pQH
    (playerOf "p2" "bob" 10 [pawnAt 100] stdTowers)
    "p1" []

/-- Simple-mode engine with a healthy Pawn, for the revive-event
scenario. -/
def eHealthy : Engine :=
  engineOf .simple .active
    (playerOf "p1" "alice" 10 [pawnAt 100] stdTowers)
    (playerOf "p2" "bob" 10 [pawnAt 100] stdTowers)
    "p1" []

/-- The property C7 asserts of a Queen summon: among the caller's alive
towers the one with the lowest HP (first index on ties, as the source
loop breaks ties) is healed by exactly `min(300, maxHP − currentHP)`,
the returned heal action carries that tower's name and the heal amount,
and one `HEAL` event carrying both is appended. -/
def QueenHealSpec (e : Engine) (pid : String) (player : Player) : Prop :=
  ∃ j t, lowestAlive player.towers = some (j, t) ∧
    player.towers[j]? = some t ∧ 0 < t.hp ∧
    (∀ u ∈ player.towers, 0 < u.hp → t.hp ≤ u.hp) ∧
    (handleQueenSummon e pid).2 = Except.ok
      { type := "heal", playerID := pid, troopName := some .Queen,
        targetType := "tower", targetName := t.name.str,
        healAmount := min 300 (t.maxHP - t.hp),
        data := [("tower_hp", EVal.int (t.hp + min 300 (t.maxHP - t.hp))),
                 ("mana_left", EVal.int player.mana)] } ∧
    (handleQueenSummon e pid).1.getPlayer? pid =
      some { player with towers := player.towers.set j { t with hp := t.hp + min 300 (t.maxHP - t.hp) } } ∧
    (handleQueenSummon e pid).1.events = e.events ++
      [{ type := "HEAL", playerID := pid,
         data := [("troop", EVal.troop .Queen), ("target", EVal.tower t.name),
                  ("heal_amount", EVal.int (min 300 (t.maxHP - t.hp))),
                  ("tower_hp", EVal.int (t.hp + min 300 (t.maxHP - t.hp)))] }]

/-- The property C8 asserts of every successful summon: the selected
troop ends at its level-scaled full HP whether or not it was destroyed,
and the number of `TROOP_REVIVED` events grows by one exactly when the
mode is Simple (where the source always logs it) or the prior HP was
≤ 0 (the Enhanced-mode condition). -/
def SummonReviveSpec (e : Engine) (pid : String) (tn : TroopType) (t : Troop) : Prop :=
  (((SummonTroop e pid tn).1.getPlayer? pid).map
      (fun p => p.troops.find? (fun x => x.name = tn))) =
    some (some (reviveUpdate (scaleStat (e.troopSpecs tn).hp t.level) t)) ∧
  reviveCount (SummonTroop e pid tn).1.events =
    reviveCount e.events +
      (if e.gameState.gameMode = GameMode.simple ∨ t.hp ≤ 0 then 1 else 0)

/-- The property C5 (amended) asserts of failed summons: the four
checks made before the HP restore leave the engine untouched; an
`INSUFFICIENT_MANA` failure leaves mana and the deployment counter at
their prior values but has already reset the selected troop to full HP;
a `NO_HEAL_TARGET` failure rolls back only the deployment counter — the
Enhanced-mode mana deduction and the HP restore persist. -/
def FailedSummonSpec (e : Engine) (pid : String) (tn : TroopType) : Prop :=
  (∀ err, (SummonTroop e pid tn).2 = Except.error err →
     err = EngineError.playerNotFound ∨ err = EngineError.notYourTurn ∨
       err = EngineError.deploymentLimit ∨ err = EngineError.troopNotAvailable →
     (SummonTroop e pid tn).1 = e) ∧
  ((SummonTroop e pid tn).2 = Except.error EngineError.insufficientMana →
     ∃ p t, e.getPlayer? pid = some p ∧
       p.troops.find? (fun x => x.name = tn) = some t ∧
       (SummonTroop e pid tn).1.getPlayer? pid =
         some { p with troops := modifyFirstTroop p.troops tn (reviveUpdate (scaleStat (e.troopSpecs tn).hp t.level)) }) ∧
  ((SummonTroop e pid tn).2 = Except.error EngineError.noHealTarget →
     ∃ p t, e.getPlayer? pid = some p ∧
       p.troops.find? (fun x => x.name = tn) = some t ∧
       ∃ p2, (SummonTroop e pid tn).1.getPlayer? pid = some p2 ∧
         p2.troopsDeployedThisTurn = p.troopsDeployedThisTurn ∧
         p2.mana = (if e.gameState.gameMode = GameMode.enhanced then p.mana - t.mana
                    else p.mana) ∧
         p2.troops = modifyFirstTroop p.troops tn
           (reviveUpdate (scaleStat (e.troopSpecs tn).hp t.level)))

/-! ### Helper lemmas -/

theorem rollDamage_fst (mode : GameMode) (atk d : Int) (roll : Bool) :
    (rollDamage mode atk d roll).1 =
      max 0 ((if mode = GameMode.enhanced ∧ roll = true then critBoost atk else atk) - d) := by
  unfold rollDamage
  by_cases h : mode = GameMode.enhanced ∧ roll = true
  · simp only [if_pos h]
    split <;> omega
  · simp only [if_neg h]
    split <;> omega

theorem rollDamage_simple_snd (atk d : Int) (roll : Bool) :
    (rollDamage GameMode.simple atk d roll).2 = false := by
  unfold rollDamage
  simp

theorem logEvent_gameState (e : Engine) (a : CombatAction) :
    (e.logEvent a).gameState = e.gameState := rfl

theorem logEvent_events (e : Engine) (a : CombatAction) :
    (e.logEvent a).events = e.events ++ [a] := rfl

theorem getPlayer?_setPlayer_self {e : Engine} {pid : String} {p q : Player}
    (h : e.getPlayer? pid = some p) (hid : q.id = p.id) :
    (e.setPlayer pid q).getPlayer? pid = some q := by
  unfold Engine.getPlayer? at h
  unfold Engine.getPlayer? Engine.setPlayer
  by_cases h1 : e.gameState.player1.id = pid
  · simp only [if_pos h1, Option.some.injEq] at h
    subst h
    simp [h1, hid]
  · by_cases h2 : e.gameState.player2.id = pid
    · simp only [if_neg h1, if_pos h2, Option.some.injEq] at h
      subst h
      simp [h1, h2, hid]
    · simp [h1, h2] at h

theorem find?_modifyFirstTroop (l : List Troop) (n : TroopType) (f : Troop → Troop)
    (hf : ∀ t, (f t).name = t.name) :
    (modifyFirstTroop l n f).find? (fun x => x.name = n) =
      (l.find? (fun x => x.name = n)).map f := by
  induction l with
  | nil => rfl
  | cons t rest ih =>
    by_cases h : t.name = n
    · simp [modifyFirstTroop, List.find?, h, hf t]
    · simp [modifyFirstTroop, List.find?, h, ih]

/-! ### Claim theorems -/

/-- C1 (amended): in every attack path the damage is
`max(0, A − DEF)` where `A = ATK` normally and `A = int(1.5 × ATK)`
on an Enhanced-mode crit (the 1.5 multiplier boosts the attack value
*before* DEF is subtracted, not the net damage); Simple mode never
crits.  Concretely, a level-1 Pawn with ATK 150 attacking DEF 100 deals
50 without a crit and 125 (= int(1.5·150) − 100) with a forced crit, in
both the manual and the auto path; Simple mode deals 50 even on a
successful roll; and a non-crit attack against DEF 200 deals 0. -/
theorem C1_damage_formula_amended :
    (∀ (mode : GameMode) (atk d : Int) (roll : Bool),
        (rollDamage mode atk d roll).1 =
          max 0 ((if mode = GameMode.enhanced ∧ roll = true then critBoost atk else atk) - d)) ∧
    (∀ (atk d : Int) (roll : Bool), (rollDamage GameMode.simple atk d roll).2 = false) ∧
    (ExecuteAttack eDamage "p1" .Pawn "tower" "Guard Tower 1" false).2.toOption.map
        (fun a => (a.damage, a.isCrit)) = some (50, false) ∧
    (ExecuteAttack eDamage "p1" .Pawn "tower" "Guard Tower 1" true).2.toOption.map
        (fun a => (a.damage, a.isCrit)) = some (125, true) ∧
    (ExecuteAttack eDamageS "p1" .Pawn "tower" "Guard Tower 1" true).2.toOption.map
        (fun a => (a.damage, a.isCrit)) = some (50, false) ∧
    (ExecuteAttack eDamage "p1" .Pawn "tower" "Guard Tower 2" false).2.toOption.map
        (fun a => (a.damage, a.isCrit)) = some (0, false) ∧
    (executeAutoAttack eDamage "p1" .Pawn true).2.map
        (fun a => (a.damage, a.isCrit)) = some (125, true) ∧
    critBoost 150 = 225 :=
  ⟨rollDamage_fst, rollDamage_simple_snd, by decide, by decide, by decide, by decide,
    by decide, by decide⟩

/-- C1 (counterexample): the claim predicts that a forced crit of a
Pawn (ATK 150) against DEF 100 deals the integer part of
`1.5 × max(0, 150 − 100) = 75`; the engine deals 125. -/
theorem C1_crit75_counterexample :
    (ExecuteAttack eDamage "p1" .Pawn "tower" "Guard Tower 1" true).2.toOption.map
        (fun a => a.damage) = some 125 ∧
    claimedCritDamage 150 100 = 75 ∧ ((125 : Int) ≠ 75) := by decide

/-- C2 (code bug): at GAME_END of a decided game the winner is awarded
30 EXP but the loser is awarded 0, not the documented 10 — the
`loserEXP = LoseEXP` assignment is commented out in `awardGameEndEXP` —
both in the in-game totals and in the amounts written back to the
player store; a draw awards both players 10 as documented. -/
theorem C2_game_end_exp_code_bug :
    eDecided.gameState.winner = "p1" ∧
    eDecided.gameState.player1.exp = 0 ∧ eDecided.gameState.player2.exp = 0 ∧
    (awardGameEndEXP eDecided).gameState.player1.exp = 30 ∧
    (awardGameEndEXP eDecided).gameState.player2.exp = 0 ∧
    (awardGameEndEXP eDecided).playerDB.map
        (fun p => (p.username, p.exp, p.gamesPlayed, p.gamesWon)) =
      [("alice", 30, 1, 1), ("bob", 0, 1, 0)] ∧
    (awardGameEndEXP eDraw).gameState.player1.exp = 10 ∧
    (awardGameEndEXP eDraw).gameState.player2.exp = 10 ∧
    ((0 : Int) ≠ 10) := by decide

/-- C3 (code bug): the level-up loop of `UpdatePlayerData` uses
`calculateRequiredEXP`, which — contrary to the spec formula
`round(100 × 1.15^(L−1))` and contrary to the function's own comment
("Level 2->3: 115 EXP, Level 3->4: 132 EXP") — compounds by the
constant `EXPScalePerLevel = 0.10` of `types.go` and is off by one:
leaving level 2 costs 100 (claim: 115) and leaving level 3 costs 110
(claim: 132).  Concretely, a level-2 profile that gains 100 EXP levels
up to 3 (with every per-unit level set to 3), which the claimed formula
forbids. -/
theorem C3_levelup_formula_code_bug :
    calculateRequiredEXP 1 = 100 ∧ calculateRequiredEXP 2 = 100 ∧
    calculateRequiredEXP 3 = 110 ∧ calculateRequiredEXP 4 = 121 ∧
    requiredEXPSpec 1 = 100 ∧ requiredEXPSpec 2 = 115 ∧ requiredEXPSpec 3 = 132 ∧
    (UpdatePlayerData [profileOf "alice" 2 0] "alice" 100 false).map
        (fun p => (p.level, p.exp, p.troopLevels TroopType.Pawn,
                   p.towerLevels TowerType.KingTower)) =
      [(3, 0, 3, 3)] ∧
    ((100 : Int) ≠ 115) := by decide

/-- C10: `Surrender` never returns an error, for every caller id and in
every game state: it always sets the winner — Player2 when the caller
id equals Player1's id, otherwise Player1 (even for an id belonging to
neither player) — and finalizes the game (status Finished, engine
stopped). -/
theorem C10_surrender_never_errors (e : Engine) (pid : String) :
    (Surrender e pid).2 = Except.ok () ∧
    (Surrender e pid).1.gameState.winner =
      (if pid = e.gameState.player1.id then e.gameState.player2.id
       else e.gameState.player1.id) ∧
    (Surrender e pid).1.gameState.status = GameStatus.finished ∧
    (Surrender e pid).1.isRunning = false :=
  ⟨rfl, rfl, rfl, rfl⟩

/-- C4 (counterexample): on a Finished game the engine does not return
a `GAME_NOT_ACTIVE` error (no such error exists anywhere in the
engine): summoning succeeds and changes the state (the deployment
counter moves 0 → 1), and `EndTurn` and `Surrender` also go through. -/
theorem C4_game_not_active_counterexample :
    eFinished.gameState.status = GameStatus.finished ∧
    isOkE (SummonTroop eFinished "p1" .Pawn).2 = true ∧
    dep1 eFinished = 0 ∧ dep1 (SummonTroop eFinished "p1" .Pawn).1 = 1 ∧
    isOkE (EndTurn eFinished "p1").2 = true ∧
    (Surrender eFinished "p1").2 = Except.ok () :=
  ⟨rfl, by decide, by decide, by decide, by decide, rfl⟩

/-- C5 (counterexample): a failed summon does not leave the caller's
state untouched.  With 0 mana, summoning a damaged Pawn (HP 10) in
Enhanced mode fails with `INSUFFICIENT_MANA` but the Pawn's HP has
already been reset to its full 100; and summoning the Queen with no
alive tower fails with `NO_HEAL_TARGET` but the mana already deducted
(10 → 5) is not refunded. -/
theorem C5_state_unchanged_counterexample :
    errE (SummonTroop eNoMana "p1" .Pawn).2 = some .insufficientMana ∧
    (eNoMana.getPlayer? "p1").map (fun p => p.troops.map (fun t => t.hp)) = some [10] ∧
    ((SummonTroop eNoMana "p1" .Pawn).1.getPlayer? "p1").map
        (fun p => p.troops.map (fun t => t.hp)) = some [100] ∧
    errE (SummonTroop eNoTowers "p1" .Queen).2 = some .noHealTarget ∧
    (eNoTowers.getPlayer? "p1").map (fun p => p.mana) = some 10 ∧
    ((SummonTroop eNoTowers "p1" .Queen).1.getPlayer? "p1").map
        (fun p => p.mana) = some 5 := by decide

/-- C6 (counterexample): with both King Towers destroyed and unequal
tower losses (P1 lost 3, P2 lost 1) the timeout evaluation declares a
draw, whereas the claim's rule (2) would make P2 — the player with
fewer losses — the winner. -/
theorem C6_both_kings_dead_counterexample :
    eBothKingsDead.isRunning = true ∧
    kingAlive eBothKingsDead.gameState.player1.towers = false ∧
    kingAlive eBothKingsDead.gameState.player2.towers = false ∧
    countDestroyed eBothKingsDead.gameState.player1.towers = 3 ∧
    countDestroyed eBothKingsDead.gameState.player2.towers = 1 ∧
    (endGameByTimeout eBothKingsDead).gameState.winner = "draw" ∧
    timeoutWinnerClaim eBothKingsDead.gameState.player1.id
      eBothKingsDead.gameState.player2.id
      eBothKingsDead.gameState.player1.towers
      eBothKingsDead.gameState.player2.towers = "p2" ∧
    ("draw" ≠ eBothKingsDead.gameState.player2.id) := by decide

/-- C8 (counterexample): in Simple mode a successful summon of a troop
at full positive HP (100) still emits a `TROOP_REVIVED` event,
contradicting "emitted if and only if the troop's HP was 0 immediately
before the summon". -/
theorem C8_revive_event_counterexample :
    eHealthy.gameState.gameMode = GameMode.simple ∧
    (eHealthy.getPlayer? "p1").map (fun p => p.troops.map (fun t => t.hp)) = some [100] ∧
    isOkE (SummonTroop eHealthy "p1" .Pawn).2 = true ∧
    reviveCount eHealthy.events = 0 ∧
    reviveCount (SummonTroop eHealthy "p1" .Pawn).1.events = 1 ∧
    ((100 : Int) ≠ 0) := by decide

theorem getPlayer?_logEvent (e : Engine) (a : CombatAction) (pid : String) :
    (e.logEvent a).getPlayer? pid = e.getPlayer? pid := rfl

theorem setPlayer_events (e : Engine) (pid : String) (p : Player) :
    (e.setPlayer pid p).events = e.events := by
  unfold Engine.setPlayer
  split
  · rfl
  · split <;> rfl

/-- Soundness of the `handleQueenSummon` selection loop, generalized
over the traversal state: the running best is the minimum alive HP of
the prefix (bounded by `maxInt32`), and the returned pair indexes the
full list. -/
theorem lowestAliveAux_sound (ts : List Tower) :
    ∀ (pre : List Tower) (bestHP : Int) (best : Option (Nat × Tower)),
      (∀ u ∈ pre, 0 < u.hp → bestHP ≤ u.hp) →
      (best = none → bestHP = maxInt32) →
      (∀ j t, best = some (j, t) → pre[j]? = some t ∧ t.hp = bestHP ∧ 0 < t.hp) →
      ∃ bestHP2,
        (∀ u ∈ pre ++ ts, 0 < u.hp → bestHP2 ≤ u.hp) ∧
        (lowestAliveAux ts pre.length bestHP best = none → bestHP2 = maxInt32) ∧
        (∀ j t, lowestAliveAux ts pre.length bestHP best = some (j, t) →
          (pre ++ ts)[j]? = some t ∧ t.hp = bestHP2 ∧ 0 < t.hp) := by
  induction ts with
  | nil =>
    intro pre bestHP best h1 h2 h3
    refine ⟨bestHP, by simpa using h1, fun h => h2 (by simpa [lowestAliveAux] using h), ?_⟩
    intro j t hj
    simpa using h3 j t (by simpa [lowestAliveAux] using hj)
  | cons t rest ih =>
    intro pre bestHP best h1 h2 h3
    by_cases hc : t.hp < bestHP ∧ 0 < t.hp
    · have heq : lowestAliveAux (t :: rest) pre.length bestHP best
          = lowestAliveAux rest ((pre ++ [t]).length) t.hp (some (pre.length, t)) := by
        simp [lowestAliveAux, hc]
      obtain ⟨b2, hb1, hb2, hb3⟩ := ih (pre ++ [t]) t.hp (some (pre.length, t))
        (by
          intro u hu hup
          rcases List.mem_append.mp hu with h | h
          · exact le_trans (le_of_lt hc.1) (h1 u h hup)
          · have : u = t := by simpa using h
            subst this
            exact le_refl _)
        (by intro h; cases h)
        (by
          intro j u hj
          cases hj
          refine ⟨?_, rfl, hc.2⟩
          rw [List.getElem?_append_right (le_refl _)]
          simp)
      refine ⟨b2, ?_, ?_, ?_⟩
      · intro u hu hup
        exact hb1 u (by simpa [List.append_assoc] using hu) hup
      · rw [heq]
        exact hb2
      · intro j u hj
        rw [heq] at hj
        obtain ⟨hget, hhp, hpos⟩ := hb3 j u hj
        exact ⟨by simpa [List.append_assoc] using hget, hhp, hpos⟩
    · have heq : lowestAliveAux (t :: rest) pre.length bestHP best
          = lowestAliveAux rest ((pre ++ [t]).length) bestHP best := by
        simp [lowestAliveAux, hc]
      obtain ⟨b2, hb1, hb2, hb3⟩ := ih (pre ++ [t]) bestHP best
        (by
          intro u hu hup
          rcases List.mem_append.mp hu with h | h
          · exact h1 u h hup
          · have : u = t := by simpa using h
            subst this
            by_contra hlt
            exact hc ⟨by omega, hup⟩)
        h2
        (by
          intro j u hj
          obtain ⟨hget, hhp, hpos⟩ := h3 j u hj
          have hlt := (List.getElem?_eq_some.mp hget).1
          refine ⟨?_, hhp, hpos⟩
          rw [List.getElem?_append, if_pos hlt]
          exact hget)
      refine ⟨b2, ?_, ?_, ?_⟩
      · intro u hu hup
        exact hb1 u (by simpa [List.append_assoc] using hu) hup
      · rw [heq]
        exact hb2
      · intro j u hj
        rw [heq] at hj
        obtain ⟨hget, hhp, hpos⟩ := hb3 j u hj
        exact ⟨by simpa [List.append_assoc] using hget, hhp, hpos⟩

theorem lowestAlive_none {towers : List Tower}
    (hbound : ∀ u ∈ towers, u.hp < maxInt32)
    (h : lowestAlive towers = none) : ∀ u ∈ towers, ¬ 0 < u.hp := by
  obtain ⟨b2, hb1, hb2, _⟩ :=
    lowestAliveAux_sound towers [] maxInt32 none (by simp) (fun _ => rfl) (by simp)
  intro u hu hup
  have h1 := hb1 u (by simpa using hu) hup
  have h2 := hb2 (by simpa [lowestAlive] using h)
  have h3 := hbound u hu
  omega

theorem lowestAlive_some {towers : List Tower} {j : Nat} {t : Tower}
    (h : lowestAlive towers = some (j, t)) :
    towers[j]? = some t ∧ 0 < t.hp ∧ ∀ u ∈ towers, 0 < u.hp → t.hp ≤ u.hp := by
  obtain ⟨b2, hb1, _, hb3⟩ :=
    lowestAliveAux_sound towers [] maxInt32 none (by simp) (fun _ => rfl) (by simp)
  obtain ⟨hget, hhp, hpos⟩ := hb3 j t (by simpa [lowestAlive] using h)
  exact ⟨by simpa using hget, hpos, fun u hu hup => hhp ▸ hb1 u (by simpa using hu) hup⟩

theorem handleQueenSummon_err {e : Engine} {pid : String} {p : Player}
    (h : e.getPlayer? pid = some p) (hn : lowestAlive p.towers = none) :
    handleQueenSummon e pid = (e, Except.error EngineError.noHealTarget) := by
  unfold handleQueenSummon
  simp only [h, hn]

theorem handleQueenSummon_ok {e : Engine} {pid : String} {p : Player} {j : Nat} {t : Tower}
    (h : e.getPlayer? pid = some p) (hs : lowestAlive p.towers = some (j, t)) :
    handleQueenSummon e pid =
      ((e.setPlayer pid { p with towers := p.towers.set j { t with hp := t.hp + healAmt t } }).logEvent
        { type := "HEAL", playerID := pid,
          data := [("troop", EVal.troop .Queen), ("target", EVal.tower t.name),
                   ("heal_amount", EVal.int (healAmt t)),
                   ("tower_hp", EVal.int (t.hp + healAmt t))] },
       Except.ok
        { type := "heal", playerID := pid, troopName := some .Queen,
          targetType := "tower", targetName := t.name.str,
          healAmount := healAmt t,
          data := [("tower_hp", EVal.int (t.hp + healAmt t)),
                   ("mana_left", EVal.int p.mana)] }) := by
  unfold handleQueenSummon
  simp only [h, hs]

theorem withStatus_gameMode (e : Engine) (s : GameStatus) :
    (withStatus e s).gameState.gameMode = e.gameState.gameMode := rfl

theorem withStatus_currentTurn (e : Engine) (s : GameStatus) :
    (withStatus e s).gameState.currentTurn = e.gameState.currentTurn := rfl

theorem getPlayer?_withStatus (e : Engine) (s : GameStatus) (pid : String) :
    (withStatus e s).getPlayer? pid = e.getPlayer? pid := rfl

theorem getOpponent?_withStatus (e : Engine) (s : GameStatus) (pid : String) :
    (withStatus e s).getOpponent? pid = e.getOpponent? pid := rfl

theorem setPlayer_status (e : Engine) (pid : String) (p : Player) :
    (e.setPlayer pid p).gameState.status = e.gameState.status := by
  unfold Engine.setPlayer
  split
  · rfl
  · split <;> rfl

theorem logEvent_status (e : Engine) (a : CombatAction) :
    (e.logEvent a).gameState.status = e.gameState.status := rfl

theorem summonRevivedEngine_status (e : Engine) (pid : String) (tn : TroopType)
    (player : Player) (t : Troop) :
    (summonRevivedEngine e pid tn player t).gameState.status = e.gameState.status := by
  unfold summonRevivedEngine
  split
  · split
    · rw [logEvent_status, setPlayer_status]
    · rw [setPlayer_status]
  · rw [logEvent_status, setPlayer_status]

theorem summonRevivedPlayer_id (e : Engine) (tn : TroopType) (player : Player) (t : Troop) :
    (summonRevivedPlayer e tn player t).id = player.id := rfl

theorem summonRevivedPlayer_troops (e : Engine) (tn : TroopType) (player : Player) (t : Troop) :
    (summonRevivedPlayer e tn player t).troops =
      modifyFirstTroop player.troops tn (reviveUpdate (fullHPFor e tn t)) := rfl

theorem summonRevivedEngine_getPlayer? {e : Engine} {pid : String} {tn : TroopType}
    {player : Player} (t : Troop) (h : e.getPlayer? pid = some player) :
    (summonRevivedEngine e pid tn player t).getPlayer? pid =
      some (summonRevivedPlayer e tn player t) := by
  unfold summonRevivedEngine
  split
  · split
    · rw [getPlayer?_logEvent]
      exact getPlayer?_setPlayer_self h rfl
    · exact getPlayer?_setPlayer_self h rfl
  · rw [getPlayer?_logEvent]
    exact getPlayer?_setPlayer_self h rfl

theorem summonRevivedEngine_events (e : Engine) (pid : String) (tn : TroopType)
    (player : Player) (t : Troop) :
    (summonRevivedEngine e pid tn player t).events =
      (if e.gameState.gameMode = GameMode.enhanced then
        (if t.hp ≤ 0 then e.events ++ [reviveLogEnh pid tn t.hp (fullHPFor e tn t)]
         else e.events)
       else e.events ++ [reviveLogSim pid tn (fullHPFor e tn t)]) := by
  unfold summonRevivedEngine
  split
  · split <;> simp [logEvent_events, setPlayer_events]
  · simp [logEvent_events, setPlayer_events]

theorem summonPaidPlayer_id (e : Engine) (tn : TroopType) (player : Player) (t : Troop) :
    (summonPaidPlayer e tn player t).id = player.id := by
  unfold summonPaidPlayer
  split <;> split <;> rfl

theorem summonPaidPlayer_towers (e : Engine) (tn : TroopType) (player : Player) (t : Troop) :
    (summonPaidPlayer e tn player t).towers = player.towers := by
  unfold summonPaidPlayer
  split <;> split <;> rfl

theorem summonPaidPlayer_troops (e : Engine) (tn : TroopType) (player : Player) (t : Troop) :
    (summonPaidPlayer e tn player t).troops =
      modifyFirstTroop player.troops tn (reviveUpdate (fullHPFor e tn t)) := by
  unfold summonPaidPlayer
  split <;> split <;> rfl

theorem summonRevivedPlayer_mana (e : Engine) (tn : TroopType) (player : Player) (t : Troop) :
    (summonRevivedPlayer e tn player t).mana = player.mana := rfl

theorem summonRevivedPlayer_dep (e : Engine) (tn : TroopType) (player : Player) (t : Troop) :
    (summonRevivedPlayer e tn player t).troopsDeployedThisTurn =
      player.troopsDeployedThisTurn := rfl

theorem summonPaidPlayer_mana (e : Engine) (tn : TroopType) (player : Player) (t : Troop) :
    (summonPaidPlayer e tn player t).mana =
      (if e.gameState.gameMode = GameMode.enhanced then player.mana - t.mana
       else player.mana) := by
  cases hm : e.gameState.gameMode <;>
    simp [summonPaidPlayer, hm, summonRevivedPlayer_mana]

theorem summonPaidPlayer_dep (e : Engine) (tn : TroopType) (player : Player) (t : Troop) :
    (summonPaidPlayer e tn player t).troopsDeployedThisTurn =
      (if e.gameState.gameMode = GameMode.simple then player.troopsDeployedThisTurn + 1
       else player.troopsDeployedThisTurn) := by
  cases hm : e.gameState.gameMode <;>
    simp [summonPaidPlayer, hm, summonRevivedPlayer_dep]

theorem SummonTroop_noPlayer {e : Engine} {pid : String} {tn : TroopType}
    (h : e.getPlayer? pid = none) :
    SummonTroop e pid tn = (e, Except.error EngineError.playerNotFound) := by
  unfold SummonTroop
  simp only [h]

theorem SummonTroop_notYourTurn {e : Engine} {pid : String} {tn : TroopType} {player : Player}
    (h : e.getPlayer? pid = some player)
    (hc : e.gameState.gameMode = GameMode.simple ∧ e.gameState.currentTurn ≠ pid) :
    SummonTroop e pid tn = (e, Except.error EngineError.notYourTurn) := by
  unfold SummonTroop
  simp only [h, if_pos hc]

theorem SummonTroop_deployLimit {e : Engine} {pid : String} {tn : TroopType} {player : Player}
    (h : e.getPlayer? pid = some player)
    (hc1 : ¬ (e.gameState.gameMode = GameMode.simple ∧ e.gameState.currentTurn ≠ pid))
    (hc2 : e.gameState.gameMode = GameMode.simple ∧ 1 ≤ player.troopsDeployedThisTurn) :
    SummonTroop e pid tn = (e, Except.error EngineError.deploymentLimit) := by
  unfold SummonTroop
  simp only [h, if_neg hc1, if_pos hc2]

theorem SummonTroop_noTroop {e : Engine} {pid : String} {tn : TroopType} {player : Player}
    (h : e.getPlayer? pid = some player)
    (hc1 : ¬ (e.gameState.gameMode = GameMode.simple ∧ e.gameState.currentTurn ≠ pid))
    (hc2 : ¬ (e.gameState.gameMode = GameMode.simple ∧ 1 ≤ player.troopsDeployedThisTurn))
    (hf : player.troops.find? (fun t => t.name = tn) = none) :
    SummonTroop e pid tn = (e, Except.error EngineError.troopNotAvailable) := by
  unfold SummonTroop
  simp only [h, if_neg hc1, if_neg hc2, hf]

theorem SummonTroop_noMana {e : Engine} {pid : String} {tn : TroopType} {player : Player}
    {t : Troop} (h : e.getPlayer? pid = some player)
    (hc1 : ¬ (e.gameState.gameMode = GameMode.simple ∧ e.gameState.currentTurn ≠ pid))
    (hc2 : ¬ (e.gameState.gameMode = GameMode.simple ∧ 1 ≤ player.troopsDeployedThisTurn))
    (hf : player.troops.find? (fun t => t.name = tn) = some t)
    (hm : e.gameState.gameMode = GameMode.enhanced ∧ player.mana < t.mana) :
    SummonTroop e pid tn =
      (summonRevivedEngine e pid tn player t, Except.error EngineError.insufficientMana) := by
  unfold SummonTroop
  simp only [h, if_neg hc1, if_neg hc2, hf, if_pos hm]

theorem SummonTroop_nonqueen_parts {e : Engine} {pid : String} {tn : TroopType}
    {player : Player} {t : Troop} (h : e.getPlayer? pid = some player)
    (hc1 : ¬ (e.gameState.gameMode = GameMode.simple ∧ e.gameState.currentTurn ≠ pid))
    (hc2 : ¬ (e.gameState.gameMode = GameMode.simple ∧ 1 ≤ player.troopsDeployedThisTurn))
    (hf : player.troops.find? (fun t => t.name = tn) = some t)
    (hm : ¬ (e.gameState.gameMode = GameMode.enhanced ∧ player.mana < t.mana))
    (hq : ¬ tn = TroopType.Queen) :
    (SummonTroop e pid tn).2 =
      Except.ok (summonRetAction pid tn (fullHPFor e tn t) (summonPaidPlayer e tn player t)) ∧
    (SummonTroop e pid tn).1.getPlayer? pid = some (summonPaidPlayer e tn player t) ∧
    (SummonTroop e pid tn).1.events =
      (summonRevivedEngine e pid tn player t).events ++
        [summonLogEvent pid tn (fullHPFor e tn t) (summonPaidPlayer e tn player t)] ∧
    (SummonTroop e pid tn).1.gameState.status = e.gameState.status := by
  have hred : SummonTroop e pid tn =
      (((summonRevivedEngine e pid tn player t).setPlayer pid
          (summonPaidPlayer e tn player t)).logEvent
        (summonLogEvent pid tn (fullHPFor e tn t) (summonPaidPlayer e tn player t)),
       Except.ok (summonRetAction pid tn (fullHPFor e tn t) (summonPaidPlayer e tn player t))) := by
    unfold SummonTroop
    simp only [h, if_neg hc1, if_neg hc2, hf, if_neg hm, if_neg hq]
  refine ⟨by rw [hred], ?_, ?_, ?_⟩
  · rw [hred]
    rw [getPlayer?_logEvent]
    exact getPlayer?_setPlayer_self (summonRevivedEngine_getPlayer? t h)
      ((summonPaidPlayer_id e tn player t).trans (summonRevivedPlayer_id e tn player t).symm)
  · rw [hred, logEvent_events, setPlayer_events]
  · rw [hred, logEvent_status, setPlayer_status, summonRevivedEngine_status]

theorem SummonTroop_queen_ok_parts {e : Engine} {pid : String}
    {player : Player} {t : Troop} {j : Nat} {tw : Tower}
    (h : e.getPlayer? pid = some player)
    (hc1 : ¬ (e.gameState.gameMode = GameMode.simple ∧ e.gameState.currentTurn ≠ pid))
    (hc2 : ¬ (e.gameState.gameMode = GameMode.simple ∧ 1 ≤ player.troopsDeployedThisTurn))
    (hf : player.troops.find? (fun t => t.name = TroopType.Queen) = some t)
    (hm : ¬ (e.gameState.gameMode = GameMode.enhanced ∧ player.mana < t.mana))
    (hlow : lowestAlive player.towers = some (j, tw)) :
    (SummonTroop e pid TroopType.Queen).2 =
      Except.ok
        { type := "heal", playerID := pid, troopName := some .Queen,
          targetType := "tower", targetName := tw.name.str,
          healAmount := healAmt tw,
          data := [("tower_hp", EVal.int (tw.hp + healAmt tw)),
                   ("mana_left", EVal.int (summonPaidPlayer e .Queen player t).mana)] } ∧
    (SummonTroop e pid TroopType.Queen).1.getPlayer? pid =
      some { summonPaidPlayer e .Queen player t with
             towers := (summonPaidPlayer e .Queen player t).towers.set j { tw with hp := tw.hp + healAmt tw } } ∧
    (SummonTroop e pid TroopType.Queen).1.events =
      (summonRevivedEngine e pid .Queen player t).events ++
        [{ type := "HEAL", playerID := pid,
           data := [("troop", EVal.troop .Queen), ("target", EVal.tower tw.name),
                    ("heal_amount", EVal.int (healAmt tw)),
                    ("tower_hp", EVal.int (tw.hp + healAmt tw))] }] ∧
    (SummonTroop e pid TroopType.Queen).1.gameState.status = e.gameState.status := by
  have hp3 : (((summonRevivedEngine e pid .Queen player t).setPlayer pid
      (summonPaidPlayer e .Queen player t))).getPlayer? pid =
      some (summonPaidPlayer e .Queen player t) :=
    getPlayer?_setPlayer_self (summonRevivedEngine_getPlayer? t h)
      ((summonPaidPlayer_id e .Queen player t).trans
        (summonRevivedPlayer_id e .Queen player t).symm)
  have hlow' : lowestAlive (summonPaidPlayer e .Queen player t).towers = some (j, tw) := by
    rw [summonPaidPlayer_towers]
    exact hlow
  have hqq := handleQueenSummon_ok hp3 hlow'
  have hred : SummonTroop e pid TroopType.Queen =
      ((((summonRevivedEngine e pid .Queen player t).setPlayer pid
          (summonPaidPlayer e .Queen player t)).setPlayer pid
          { summonPaidPlayer e .Queen player t with
            towers := (summonPaidPlayer e .Queen player t).towers.set j { tw with hp := tw.hp + healAmt tw } }).logEvent
        { type := "HEAL", playerID := pid,
          data := [("troop", EVal.troop .Queen), ("target", EVal.tower tw.name),
                   ("heal_amount", EVal.int (healAmt tw)),
                   ("tower_hp", EVal.int (tw.hp + healAmt tw))] },
       Except.ok
        { type := "heal", playerID := pid, troopName := some .Queen,
          targetType := "tower", targetName := tw.name.str,
          healAmount := healAmt tw,
          data := [("tower_hp", EVal.int (tw.hp + healAmt tw)),
                   ("mana_left", EVal.int (summonPaidPlayer e .Queen player t).mana)] }) := by
    unfold SummonTroop
    simp only [h, if_neg hc1, if_neg hc2, hf, if_neg hm, eq_self_iff_true, if_true, hqq]
  refine ⟨by rw [hred], ?_, ?_, ?_⟩
  · rw [hred, getPlayer?_logEvent]
    exact getPlayer?_setPlayer_self hp3 rfl
  · rw [hred, logEvent_events, setPlayer_events, setPlayer_events]
  · rw [hred, logEvent_status, setPlayer_status, setPlayer_status, summonRevivedEngine_status]

theorem SummonTroop_queen_err_parts {e : Engine} {pid : String}
    {player : Player} {t : Troop}
    (h : e.getPlayer? pid = some player)
    (hc1 : ¬ (e.gameState.gameMode = GameMode.simple ∧ e.gameState.currentTurn ≠ pid))
    (hc2 : ¬ (e.gameState.gameMode = GameMode.simple ∧ 1 ≤ player.troopsDeployedThisTurn))
    (hf : player.troops.find? (fun t => t.name = TroopType.Queen) = some t)
    (hm : ¬ (e.gameState.gameMode = GameMode.enhanced ∧ player.mana < t.mana))
    (hlow : lowestAlive player.towers = none) :
    (SummonTroop e pid TroopType.Queen).2 = Except.error EngineError.noHealTarget ∧
    (SummonTroop e pid TroopType.Queen).1.getPlayer? pid =
      some (if e.gameState.gameMode = GameMode.simple then
              { summonPaidPlayer e .Queen player t with
                troopsDeployedThisTurn :=
                  (summonPaidPlayer e .Queen player t).troopsDeployedThisTurn - 1 }
            else summonPaidPlayer e .Queen player t) ∧
    (SummonTroop e pid TroopType.Queen).1.gameState.status = e.gameState.status := by
  have hp3 : (((summonRevivedEngine e pid .Queen player t).setPlayer pid
      (summonPaidPlayer e .Queen player t))).getPlayer? pid =
      some (summonPaidPlayer e .Queen player t) :=
    getPlayer?_setPlayer_self (summonRevivedEngine_getPlayer? t h)
      ((summonPaidPlayer_id e .Queen player t).trans
        (summonRevivedPlayer_id e .Queen player t).symm)
  have hlow' : lowestAlive (summonPaidPlayer e .Queen player t).towers = none := by
    rw [summonPaidPlayer_towers]
    exact hlow
  have hqq := handleQueenSummon_err hp3 hlow'
  by_cases hgm : e.gameState.gameMode = GameMode.simple
  · have hred : SummonTroop e pid TroopType.Queen =
        (((summonRevivedEngine e pid .Queen player t).setPlayer pid
            (summonPaidPlayer e .Queen player t)).setPlayer pid
          { summonPaidPlayer e .Queen player t with
            troopsDeployedThisTurn :=
              (summonPaidPlayer e .Queen player t).troopsDeployedThisTurn - 1 },
         Except.error EngineError.noHealTarget) := by
      unfold SummonTroop
      simp only [h, if_neg hc1, if_neg hc2, hf, if_neg hm, eq_self_iff_true, if_true, hqq, if_pos hgm, hp3]
    refine ⟨by rw [hred], ?_, ?_⟩
    · rw [hred, if_pos hgm]
      exact getPlayer?_setPlayer_self hp3 rfl
    · rw [hred, setPlayer_status, setPlayer_status, summonRevivedEngine_status]
  · have hred : SummonTroop e pid TroopType.Queen =
        ((summonRevivedEngine e pid .Queen player t).setPlayer pid
            (summonPaidPlayer e .Queen player t),
         Except.error EngineError.noHealTarget) := by
      unfold SummonTroop
      simp only [h, if_neg hc1, if_neg hc2, hf, if_neg hm, eq_self_iff_true, if_true, hqq, if_neg hgm]
    refine ⟨by rw [hred], ?_, ?_⟩
    · rw [hred, if_neg hgm]
      exact hp3
    · rw [hred, setPlayer_status, summonRevivedEngine_status]

theorem summonRevivedPlayer_withStatus (e : Engine) (s : GameStatus) (tn : TroopType)
    (player : Player) (t : Troop) :
    summonRevivedPlayer (withStatus e s) tn player t = summonRevivedPlayer e tn player t := rfl

theorem fullHPFor_withStatus (e : Engine) (s : GameStatus) (tn : TroopType) (t : Troop) :
    fullHPFor (withStatus e s) tn t = fullHPFor e tn t := rfl

theorem summonPaidPlayer_withStatus (e : Engine) (s : GameStatus) (tn : TroopType)
    (player : Player) (t : Troop) :
    summonPaidPlayer (withStatus e s) tn player t = summonPaidPlayer e tn player t := by
  simp only [summonPaidPlayer, withStatus_gameMode, summonRevivedPlayer_withStatus]

theorem SummonTroop_status_snd (e : Engine) (s : GameStatus) (pid : String) (tn : TroopType) :
    (SummonTroop (withStatus e s) pid tn).2 = (SummonTroop e pid tn).2 := by
  cases hgp : e.getPlayer? pid with
  | none =>
    rw [@SummonTroop_noPlayer (withStatus e s) pid tn hgp, SummonTroop_noPlayer hgp]
  | some player =>
    by_cases hc1 : e.gameState.gameMode = GameMode.simple ∧ e.gameState.currentTurn ≠ pid
    · rw [@SummonTroop_notYourTurn (withStatus e s) pid tn player hgp hc1,
          SummonTroop_notYourTurn hgp hc1]
    · by_cases hc2 : e.gameState.gameMode = GameMode.simple ∧ 1 ≤ player.troopsDeployedThisTurn
      · rw [@SummonTroop_deployLimit (withStatus e s) pid tn player hgp hc1 hc2,
            SummonTroop_deployLimit hgp hc1 hc2]
      · cases hf : player.troops.find? (fun t => t.name = tn) with
        | none =>
          rw [@SummonTroop_noTroop (withStatus e s) pid tn player hgp hc1 hc2 hf,
              SummonTroop_noTroop hgp hc1 hc2 hf]
        | some t =>
          by_cases hm : e.gameState.gameMode = GameMode.enhanced ∧ player.mana < t.mana
          · rw [@SummonTroop_noMana (withStatus e s) pid tn player t hgp hc1 hc2 hf hm,
                SummonTroop_noMana hgp hc1 hc2 hf hm]
          · by_cases hq : tn = TroopType.Queen
            · subst hq
              cases hlow : lowestAlive player.towers with
              | none =>
                rw [(@SummonTroop_queen_err_parts (withStatus e s) pid player t hgp hc1 hc2 hf hm hlow).1,
                    (SummonTroop_queen_err_parts hgp hc1 hc2 hf hm hlow).1]
              | some jt =>
                obtain ⟨j, tw⟩ := jt
                rw [(@SummonTroop_queen_ok_parts (withStatus e s) pid player t j tw hgp hc1 hc2 hf hm hlow).1,
                    (SummonTroop_queen_ok_parts hgp hc1 hc2 hf hm hlow).1,
                    summonPaidPlayer_withStatus]
            · rw [(@SummonTroop_nonqueen_parts (withStatus e s) pid tn player t hgp hc1 hc2 hf hm hq).1,
                  (SummonTroop_nonqueen_parts hgp hc1 hc2 hf hm hq).1,
                  summonPaidPlayer_withStatus, fullHPFor_withStatus]

theorem SummonTroop_preserves_status (e : Engine) (pid : String) (tn : TroopType) :
    (SummonTroop e pid tn).1.gameState.status = e.gameState.status := by
  cases hgp : e.getPlayer? pid with
  | none => rw [SummonTroop_noPlayer hgp]
  | some player =>
    by_cases hc1 : e.gameState.gameMode = GameMode.simple ∧ e.gameState.currentTurn ≠ pid
    · rw [SummonTroop_notYourTurn hgp hc1]
    · by_cases hc2 : e.gameState.gameMode = GameMode.simple ∧ 1 ≤ player.troopsDeployedThisTurn
      · rw [SummonTroop_deployLimit hgp hc1 hc2]
      · cases hf : player.troops.find? (fun t => t.name = tn) with
        | none => rw [SummonTroop_noTroop hgp hc1 hc2 hf]
        | some t =>
          by_cases hm : e.gameState.gameMode = GameMode.enhanced ∧ player.mana < t.mana
          · rw [SummonTroop_noMana hgp hc1 hc2 hf hm]
            exact summonRevivedEngine_status e pid tn player t
          · by_cases hq : tn = TroopType.Queen
            · subst hq
              cases hlow : lowestAlive player.towers with
              | none => exact (SummonTroop_queen_err_parts hgp hc1 hc2 hf hm hlow).2.2
              | some jt =>
                obtain ⟨j, tw⟩ := jt
                exact (SummonTroop_queen_ok_parts hgp hc1 hc2 hf hm hlow).2.2.2
            · exact (SummonTroop_nonqueen_parts hgp hc1 hc2 hf hm hq).2.2.2

theorem ExecuteAttack_status_snd (e : Engine) (s : GameStatus) (pid : String)
    (an : TroopType) (tt tname : String) (roll : Bool) :
    (ExecuteAttack (withStatus e s) pid an tt tname roll).2 =
      (ExecuteAttack e pid an tt tname roll).2 := by
  unfold ExecuteAttack
  dsimp only [getPlayer?_withStatus, getOpponent?_withStatus, withStatus_gameMode]
  split
  · split
    · rfl
    · split
      · rfl
      · split
        · rfl
        · split
          · rfl
          · split
            · rfl
            · split
              · rfl
              · rfl
  · rfl

theorem EndTurn_status_snd (e : Engine) (s : GameStatus) (pid : String) :
    (EndTurn (withStatus e s) pid).2 = (EndTurn e pid).2 := by
  unfold EndTurn
  dsimp only [withStatus_gameMode, withStatus_currentTurn]
  split
  · rfl
  · split <;> rfl

/-- C4 (amended): no engine operation checks the room status.  A summon,
attack or end-turn called on a game whose status has been overwritten
with any value (in particular Finished) returns exactly the same result
as on the original game — the Active-status precondition and the
`GAME_NOT_ACTIVE` error do not exist in the code — and a summon never
changes the status either; `Surrender` returns `nil` unconditionally. -/
theorem C4_no_status_check_amended :
    (∀ (e : Engine) (s : GameStatus) (pid : String) (tn : TroopType),
        (SummonTroop (withStatus e s) pid tn).2 = (SummonTroop e pid tn).2) ∧
    (∀ (e : Engine) (pid : String) (tn : TroopType),
        (SummonTroop e pid tn).1.gameState.status = e.gameState.status) ∧
    (∀ (e : Engine) (s : GameStatus) (pid : String) (an : TroopType)
        (tt tname : String) (roll : Bool),
        (ExecuteAttack (withStatus e s) pid an tt tname roll).2 =
          (ExecuteAttack e pid an tt tname roll).2) ∧
    (∀ (e : Engine) (s : GameStatus) (pid : String),
        (EndTurn (withStatus e s) pid).2 = (EndTurn e pid).2) ∧
    (∀ (e : Engine) (pid : String), (Surrender e pid).2 = Except.ok ()) :=
  ⟨SummonTroop_status_snd, SummonTroop_preserves_status,
   ExecuteAttack_status_snd, EndTurn_status_snd, fun _ _ => rfl⟩

theorem getPlayer?_cases {e : Engine} {pid : String} {p : Player}
    (h : e.getPlayer? pid = some p) :
    p = e.gameState.player1 ∨ p = e.gameState.player2 := by
  unfold Engine.getPlayer? at h
  split at h
  · exact Or.inl (Option.some.inj h).symm
  · split at h
    · exact Or.inr (Option.some.inj h).symm
    · exact Option.noConfusion h

theorem getOpponent?_cases {e : Engine} {pid : String} {p : Player}
    (h : e.getOpponent? pid = some p) :
    p = e.gameState.player1 ∨ p = e.gameState.player2 := by
  unfold Engine.getOpponent? at h
  split at h
  · exact Or.inr (Option.some.inj h).symm
  · split at h
    · exact Or.inl (Option.some.inj h).symm
    · exact Option.noConfusion h

theorem player_dep_cases {e : Engine} {p : Player} (h : DeployedOk e)
    (hc : p = e.gameState.player1 ∨ p = e.gameState.player2) :
    p.troopsDeployedThisTurn = 0 ∨ p.troopsDeployedThisTurn = 1 := by
  rcases hc with rfl | rfl
  · exact h.1
  · exact h.2

theorem setPlayer_DeployedOk {e : Engine} (pid : String) {p : Player} (h : DeployedOk e)
    (hp : p.troopsDeployedThisTurn = 0 ∨ p.troopsDeployedThisTurn = 1) :
    DeployedOk (e.setPlayer pid p) := by
  unfold Engine.setPlayer
  split
  · exact ⟨hp, h.2⟩
  · split
    · exact ⟨h.1, hp⟩
    · exact h

theorem setPlayer_DeployedOk2 {e : Engine} {p : Player} (pid : String) {q : Player}
    (h : DeployedOk e) (hc : p = e.gameState.player1 ∨ p = e.gameState.player2)
    (hdep : q.troopsDeployedThisTurn = p.troopsDeployedThisTurn) :
    DeployedOk (e.setPlayer pid q) := by
  apply setPlayer_DeployedOk pid h
  rw [hdep]
  exact player_dep_cases h hc

theorem DeployedOk_ite {c : Prop} [Decidable c] {a b : Engine}
    (ha : DeployedOk a) (hb : DeployedOk b) : DeployedOk (if c then a else b) := by
  split
  · exact ha
  · exact hb

theorem DeployedOk_logEvent {e : Engine} (a : CombatAction) (h : DeployedOk e) :
    DeployedOk (e.logEvent a) := h

theorem DeployedOk_endGame {e : Engine} (h : DeployedOk e) : DeployedOk (endGame e) := h

theorem DeployedOk_StartGame {e : Engine} (h : DeployedOk e) : DeployedOk (StartGame e) := h

theorem DeployedOk_checkWin {e : Engine} (h : DeployedOk e) :
    DeployedOk (checkWinConditions e).1 := by
  unfold checkWinConditions
  split
  · exact h
  · split
    · exact h
    · exact h

theorem DeployedOk_of_deps {e e' : Engine} (h : DeployedOk e)
    (h1 : dep1 e' = dep1 e) (h2 : dep2 e' = dep2 e) : DeployedOk e' := by
  constructor
  · rw [h1]
    exact h.1
  · rw [h2]
    exact h.2

theorem dep1_awardGameEndEXP (e : Engine) : dep1 (awardGameEndEXP e) = dep1 e := by
  unfold awardGameEndEXP dep1 Engine.logEvent
  dsimp only
  split
  · rfl
  · split <;> rfl

theorem dep2_awardGameEndEXP (e : Engine) : dep2 (awardGameEndEXP e) = dep2 e := by
  unfold awardGameEndEXP dep2 Engine.logEvent
  dsimp only
  split
  · rfl
  · split <;> rfl

theorem DeployedOk_awardGameEndEXP {e : Engine} (h : DeployedOk e) :
    DeployedOk (awardGameEndEXP e) :=
  DeployedOk_of_deps h (dep1_awardGameEndEXP e) (dep2_awardGameEndEXP e)

theorem DeployedOk_awardEXPForDamage {e : Engine} (pid : String) (d : Int) (tt : String)
    (h : DeployedOk e) : DeployedOk (awardEXPForDamage e pid d tt) := by
  unfold awardEXPForDamage
  split
  · exact h
  · exact DeployedOk_logEvent _
      (setPlayer_DeployedOk2 _ h (getPlayer?_cases (by assumption)) (by rfl))

theorem DeployedOk_awardEXPForDestructionTower {e : Engine} (pid : String) (n : TowerType)
    (h : DeployedOk e) : DeployedOk (awardEXPForDestructionTower e pid n) := by
  unfold awardEXPForDestructionTower
  split
  · exact h
  · exact DeployedOk_logEvent _
      (setPlayer_DeployedOk2 _ h (getPlayer?_cases (by assumption)) (by rfl))

theorem DeployedOk_awardEXPForDestructionTroop {e : Engine} (pid : String) (tn : TroopType)
    (h : DeployedOk e) : DeployedOk (awardEXPForDestructionTroop e pid tn) := by
  unfold awardEXPForDestructionTroop
  split
  · exact DeployedOk_ite h h
  · exact DeployedOk_ite
      (DeployedOk_logEvent _
        (setPlayer_DeployedOk2 _ h (getPlayer?_cases (by assumption)) (by rfl))) h

theorem DeployedOk_handleTowerDestroyed {e : Engine} (o : String) (i : Nat) (n : TowerType)
    (h : DeployedOk e) : DeployedOk (handleTowerDestroyed e o i n) := by
  unfold handleTowerDestroyed
  apply DeployedOk_logEvent
  split <;> (repeat' split) <;>
    first
      | exact h
      | exact setPlayer_DeployedOk2 _ h (getPlayer?_cases (by assumption)) (by rfl)

theorem DeployedOk_Surrender {e : Engine} (pid : String) (h : DeployedOk e) :
    DeployedOk (Surrender e pid).1 := by
  unfold Surrender
  exact DeployedOk_logEvent _ (DeployedOk_endGame (DeployedOk_awardGameEndEXP h))

theorem DeployedOk_endGameByTimeout {e : Engine} (h : DeployedOk e) :
    DeployedOk (endGameByTimeout e) := by
  unfold endGameByTimeout
  split
  · exact h
  · exact DeployedOk_endGame (DeployedOk_logEvent _ (DeployedOk_awardGameEndEXP h))

theorem dep1_manaTick_pre (e : Engine) :
    dep1 { e with gameState := { e.gameState with
        player1 := if e.gameState.player1.mana < MaxMana then
            { e.gameState.player1 with mana :=
                if MaxMana < e.gameState.player1.mana + ManaRegenPerSecond then MaxMana
                else e.gameState.player1.mana + ManaRegenPerSecond }
          else e.gameState.player1,
        player2 := if e.gameState.player2.mana < MaxMana then
            { e.gameState.player2 with mana :=
                if MaxMana < e.gameState.player2.mana + ManaRegenPerSecond then MaxMana
                else e.gameState.player2.mana + ManaRegenPerSecond }
          else e.gameState.player2,
        timeLeft := e.gameState.timeLeft - 1 } } = dep1 e := by
  unfold dep1
  dsimp only
  split <;> rfl

theorem dep2_manaTick_pre (e : Engine) :
    dep2 { e with gameState := { e.gameState with
        player1 := if e.gameState.player1.mana < MaxMana then
            { e.gameState.player1 with mana :=
                if MaxMana < e.gameState.player1.mana + ManaRegenPerSecond then MaxMana
                else e.gameState.player1.mana + ManaRegenPerSecond }
          else e.gameState.player1,
        player2 := if e.gameState.player2.mana < MaxMana then
            { e.gameState.player2 with mana :=
                if MaxMana < e.gameState.player2.mana + ManaRegenPerSecond then MaxMana
                else e.gameState.player2.mana + ManaRegenPerSecond }
          else e.gameState.player2,
        timeLeft := e.gameState.timeLeft - 1 } } = dep2 e := by
  unfold dep2
  dsimp only
  split <;> rfl

theorem DeployedOk_manaTick {e : Engine} (h : DeployedOk e) : DeployedOk (manaTick e) := by
  have hpre : DeployedOk { e with gameState := { e.gameState with
      player1 := if e.gameState.player1.mana < MaxMana then
          { e.gameState.player1 with mana :=
              if MaxMana < e.gameState.player1.mana + ManaRegenPerSecond then MaxMana
              else e.gameState.player1.mana + ManaRegenPerSecond }
        else e.gameState.player1,
      player2 := if e.gameState.player2.mana < MaxMana then
          { e.gameState.player2 with mana :=
              if MaxMana < e.gameState.player2.mana + ManaRegenPerSecond then MaxMana
              else e.gameState.player2.mana + ManaRegenPerSecond }
        else e.gameState.player2,
      timeLeft := e.gameState.timeLeft - 1 } } :=
    DeployedOk_of_deps h (dep1_manaTick_pre e) (dep2_manaTick_pre e)
  unfold manaTick
  split
  · exact h
  · exact DeployedOk_ite
      (DeployedOk_endGameByTimeout (DeployedOk_ite (DeployedOk_logEvent _ hpre) hpre))
      (DeployedOk_ite (DeployedOk_logEvent _ hpre) hpre)

theorem DeployedOk_switchTurn {e : Engine} (h : DeployedOk e) : DeployedOk (switchTurn e) := by
  unfold switchTurn
  split
  · exact DeployedOk_ite ⟨Or.inl rfl, Or.inl rfl⟩ ⟨Or.inl rfl, Or.inl rfl⟩
  · exact DeployedOk_ite h h

theorem DeployedOk_EndTurn {e : Engine} (pid : String) (h : DeployedOk e) :
    DeployedOk (EndTurn e pid).1 := by
  unfold EndTurn
  split
  · exact h
  · split
    · exact h
    · exact DeployedOk_logEvent _ (DeployedOk_switchTurn h)

theorem DeployedOk_autoEndTurn {e : Engine} (pid : String) (h : DeployedOk e) :
    DeployedOk (autoEndTurn e pid) := by
  unfold autoEndTurn
  split
  · exact h
  · split
    · exact h
    · exact DeployedOk_logEvent _ (DeployedOk_logEvent _ (DeployedOk_switchTurn h))

theorem SummonTroop_nonqueen_eq {e : Engine} {pid : String} {tn : TroopType}
    {player : Player} {t : Troop} (h : e.getPlayer? pid = some player)
    (hc1 : ¬ (e.gameState.gameMode = GameMode.simple ∧ e.gameState.currentTurn ≠ pid))
    (hc2 : ¬ (e.gameState.gameMode = GameMode.simple ∧ 1 ≤ player.troopsDeployedThisTurn))
    (hf : player.troops.find? (fun t => t.name = tn) = some t)
    (hm : ¬ (e.gameState.gameMode = GameMode.enhanced ∧ player.mana < t.mana))
    (hq : ¬ tn = TroopType.Queen) :
    SummonTroop e pid tn =
      (((summonRevivedEngine e pid tn player t).setPlayer pid
          (summonPaidPlayer e tn player t)).logEvent
        (summonLogEvent pid tn (fullHPFor e tn t) (summonPaidPlayer e tn player t)),
       Except.ok (summonRetAction pid tn (fullHPFor e tn t) (summonPaidPlayer e tn player t))) := by
  unfold SummonTroop
  simp only [h, if_neg hc1, if_neg hc2, hf, if_neg hm, if_neg hq]

theorem SummonTroop_queen_ok_eq {e : Engine} {pid : String}
    {player : Player} {t : Troop} {j : Nat} {tw : Tower}
    (h : e.getPlayer? pid = some player)
    (hc1 : ¬ (e.gameState.gameMode = GameMode.simple ∧ e.gameState.currentTurn ≠ pid))
    (hc2 : ¬ (e.gameState.gameMode = GameMode.simple ∧ 1 ≤ player.troopsDeployedThisTurn))
    (hf : player.troops.find? (fun t => t.name = TroopType.Queen) = some t)
    (hm : ¬ (e.gameState.gameMode = GameMode.enhanced ∧ player.mana < t.mana))
    (hlow : lowestAlive player.towers = some (j, tw)) :
    SummonTroop e pid TroopType.Queen =
      ((((summonRevivedEngine e pid .Queen player t).setPlayer pid
          (summonPaidPlayer e .Queen player t)).setPlayer pid
          { summonPaidPlayer e .Queen player t with
            towers := (summonPaidPlayer e .Queen player t).towers.set j { tw with hp := tw.hp + healAmt tw } }).logEvent
        { type := "HEAL", playerID := pid,
          data := [("troop", EVal.troop .Queen), ("target", EVal.tower tw.name),
                   ("heal_amount", EVal.int (healAmt tw)),
                   ("tower_hp", EVal.int (tw.hp + healAmt tw))] },
       Except.ok
        { type := "heal", playerID := pid, troopName := some .Queen,
          targetType := "tower", targetName := tw.name.str,
          healAmount := healAmt tw,
          data := [("tower_hp", EVal.int (tw.hp + healAmt tw)),
                   ("mana_left", EVal.int (summonPaidPlayer e .Queen player t).mana)] }) := by
  have hp3 : (((summonRevivedEngine e pid .Queen player t).setPlayer pid
      (summonPaidPlayer e .Queen player t))).getPlayer? pid =
      some (summonPaidPlayer e .Queen player t) :=
    getPlayer?_setPlayer_self (summonRevivedEngine_getPlayer? t h)
      ((summonPaidPlayer_id e .Queen player t).trans
        (summonRevivedPlayer_id e .Queen player t).symm)
  have hlow' : lowestAlive (summonPaidPlayer e .Queen player t).towers = some (j, tw) := by
    rw [summonPaidPlayer_towers]
    exact hlow
  have hqq := handleQueenSummon_ok hp3 hlow'
  unfold SummonTroop
  simp only [h, if_neg hc1, if_neg hc2, hf, if_neg hm, eq_self_iff_true, if_true, hqq]

theorem SummonTroop_queen_err_eq {e : Engine} {pid : String}
    {player : Player} {t : Troop}
    (h : e.getPlayer? pid = some player)
    (hc1 : ¬ (e.gameState.gameMode = GameMode.simple ∧ e.gameState.currentTurn ≠ pid))
    (hc2 : ¬ (e.gameState.gameMode = GameMode.simple ∧ 1 ≤ player.troopsDeployedThisTurn))
    (hf : player.troops.find? (fun t => t.name = TroopType.Queen) = some t)
    (hm : ¬ (e.gameState.gameMode = GameMode.enhanced ∧ player.mana < t.mana))
    (hlow : lowestAlive player.towers = none) :
    SummonTroop e pid TroopType.Queen =
      ((if e.gameState.gameMode = GameMode.simple then
          (((summonRevivedEngine e pid .Queen player t).setPlayer pid
              (summonPaidPlayer e .Queen player t)).setPlayer pid
            { summonPaidPlayer e .Queen player t with
              troopsDeployedThisTurn :=
                (summonPaidPlayer e .Queen player t).troopsDeployedThisTurn - 1 })
        else ((summonRevivedEngine e pid .Queen player t).setPlayer pid
                (summonPaidPlayer e .Queen player t))),
       Except.error EngineError.noHealTarget) := by
  have hp3 : (((summonRevivedEngine e pid .Queen player t).setPlayer pid
      (summonPaidPlayer e .Queen player t))).getPlayer? pid =
      some (summonPaidPlayer e .Queen player t) :=
    getPlayer?_setPlayer_self (summonRevivedEngine_getPlayer? t h)
      ((summonPaidPlayer_id e .Queen player t).trans
        (summonRevivedPlayer_id e .Queen player t).symm)
  have hlow' : lowestAlive (summonPaidPlayer e .Queen player t).towers = none := by
    rw [summonPaidPlayer_towers]
    exact hlow
  have hqq := handleQueenSummon_err hp3 hlow'
  by_cases hgm : e.gameState.gameMode = GameMode.simple
  · rw [if_pos hgm]
    unfold SummonTroop
    simp only [h, if_neg hc1, if_neg hc2, hf, if_neg hm, eq_self_iff_true, if_true, hqq,
      if_pos hgm, hp3]
  · rw [if_neg hgm]
    unfold SummonTroop
    simp only [h, if_neg hc1, if_neg hc2, hf, if_neg hm, eq_self_iff_true, if_true, hqq,
      if_neg hgm]

theorem DeployedOk_SummonTroop {e : Engine} (pid : String) (tn : TroopType)
    (h : DeployedOk e) : DeployedOk (SummonTroop e pid tn).1 := by
  cases hgp : e.getPlayer? pid with
  | none =>
    rw [SummonTroop_noPlayer hgp]
    exact h
  | some player =>
    by_cases hc1 : e.gameState.gameMode = GameMode.simple ∧ e.gameState.currentTurn ≠ pid
    · rw [SummonTroop_notYourTurn hgp hc1]
      exact h
    · by_cases hc2 : e.gameState.gameMode = GameMode.simple ∧ 1 ≤ player.troopsDeployedThisTurn
      · rw [SummonTroop_deployLimit hgp hc1 hc2]
        exact h
      · cases hf : player.troops.find? (fun t => t.name = tn) with
        | none =>
          rw [SummonTroop_noTroop hgp hc1 hc2 hf]
          exact h
        | some t =>
          have hplayer : player.troopsDeployedThisTurn = 0 ∨ player.troopsDeployedThisTurn = 1 :=
            player_dep_cases h (getPlayer?_cases hgp)
          have hrev : DeployedOk (summonRevivedEngine e pid tn player t) := by
            unfold summonRevivedEngine
            split
            · split
              · exact DeployedOk_logEvent _
                  (setPlayer_DeployedOk2 _ h (getPlayer?_cases hgp) (by rfl))
              · exact setPlayer_DeployedOk2 _ h (getPlayer?_cases hgp) (by rfl)
            · exact DeployedOk_logEvent _
                (setPlayer_DeployedOk2 _ h (getPlayer?_cases hgp) (by rfl))
          by_cases hm : e.gameState.gameMode = GameMode.enhanced ∧ player.mana < t.mana
          · rw [SummonTroop_noMana hgp hc1 hc2 hf hm]
            exact hrev
          · have hpaid : (summonPaidPlayer e tn player t).troopsDeployedThisTurn = 0 ∨
                (summonPaidPlayer e tn player t).troopsDeployedThisTurn = 1 := by
              rw [summonPaidPlayer_dep]
              by_cases hgm : e.gameState.gameMode = GameMode.simple
              · rw [if_pos hgm]
                rcases hplayer with h0 | h1
                · exact Or.inr (by rw [h0]; decide)
                · exact absurd ⟨hgm, by rw [h1]⟩ hc2
              · rw [if_neg hgm]
                exact hplayer
            have hset : DeployedOk ((summonRevivedEngine e pid tn player t).setPlayer pid
                (summonPaidPlayer e tn player t)) :=
              setPlayer_DeployedOk _ hrev hpaid
            by_cases hq : tn = TroopType.Queen
            · subst hq
              cases hlow : lowestAlive player.towers with
              | none =>
                rw [SummonTroop_queen_err_eq hgp hc1 hc2 hf hm hlow]
                show DeployedOk (if _ then _ else _)
                split
                · rename_i hgm
                  apply setPlayer_DeployedOk _ hset
                  left
                  show (summonPaidPlayer e TroopType.Queen player t).troopsDeployedThisTurn - 1 = 0
                  rw [summonPaidPlayer_dep, if_pos hgm]
                  rcases hplayer with h0 | h1
                  · rw [h0]
                    decide
                  · exact absurd ⟨hgm, by rw [h1]⟩ hc2
                · exact hset
              | some jt =>
                obtain ⟨j, tw⟩ := jt
                rw [SummonTroop_queen_ok_eq hgp hc1 hc2 hf hm hlow]
                exact DeployedOk_logEvent _ (setPlayer_DeployedOk _ hset hpaid)
            · rw [SummonTroop_nonqueen_eq hgp hc1 hc2 hf hm hq]
              exact DeployedOk_logEvent _ hset

theorem DeployedOk_ExecuteAttack {e : Engine} (pid : String) (an : TroopType)
    (tt tname : String) (roll : Bool) (h : DeployedOk e) :
    DeployedOk (ExecuteAttack e pid an tt tname roll).1 := by
  unfold ExecuteAttack
  split
  · rename_i a b player opponent hgp hgo
    split
    · exact h
    · split
      · exact h
      · split
        · exact h
        · split
          · exact h
          · split
            · exact h
            · split
              · exact h
              · apply DeployedOk_ite
                · apply DeployedOk_endGame
                  apply DeployedOk_checkWin
                  apply DeployedOk_ite
                  · apply DeployedOk_handleTowerDestroyed
                    apply DeployedOk_awardEXPForDestructionTower
                    apply DeployedOk_ite
                    · apply DeployedOk_awardEXPForDamage
                      exact setPlayer_DeployedOk2 _ h (getOpponent?_cases hgo) (by rfl)
                    · exact setPlayer_DeployedOk2 _ h (getOpponent?_cases hgo) (by rfl)
                  · apply DeployedOk_ite
                    · apply DeployedOk_awardEXPForDamage
                      exact setPlayer_DeployedOk2 _ h (getOpponent?_cases hgo) (by rfl)
                    · exact setPlayer_DeployedOk2 _ h (getOpponent?_cases hgo) (by rfl)
                · apply DeployedOk_checkWin
                  apply DeployedOk_ite
                  · apply DeployedOk_handleTowerDestroyed
                    apply DeployedOk_awardEXPForDestructionTower
                    apply DeployedOk_ite
                    · apply DeployedOk_awardEXPForDamage
                      exact setPlayer_DeployedOk2 _ h (getOpponent?_cases hgo) (by rfl)
                    · exact setPlayer_DeployedOk2 _ h (getOpponent?_cases hgo) (by rfl)
                  · apply DeployedOk_ite
                    · apply DeployedOk_awardEXPForDamage
                      exact setPlayer_DeployedOk2 _ h (getOpponent?_cases hgo) (by rfl)
                    · exact setPlayer_DeployedOk2 _ h (getOpponent?_cases hgo) (by rfl)
  · exact h

theorem DeployedOk_executeAutoAttack {e : Engine} (pid : String) (tn : TroopType)
    (roll : Bool) (h : DeployedOk e) :
    DeployedOk (executeAutoAttack e pid tn roll).1 := by
  unfold executeAutoAttack
  split
  · rename_i a b player opponent hgp hgo
    split
    · exact h
    · split
      · exact h
      · split
        · exact h
        · apply DeployedOk_ite
          · apply DeployedOk_ite
            · apply DeployedOk_endGame
              apply DeployedOk_checkWin
              apply DeployedOk_handleTowerDestroyed
              apply DeployedOk_logEvent
              apply DeployedOk_logEvent
              apply DeployedOk_logEvent
              apply DeployedOk_awardEXPForDestructionTower
              apply DeployedOk_ite
              · apply DeployedOk_awardEXPForDamage
                exact setPlayer_DeployedOk2 _ h (getOpponent?_cases hgo) (by rfl)
              · exact setPlayer_DeployedOk2 _ h (getOpponent?_cases hgo) (by rfl)
            · apply DeployedOk_checkWin
              apply DeployedOk_handleTowerDestroyed
              apply DeployedOk_logEvent
              apply DeployedOk_logEvent
              apply DeployedOk_logEvent
              apply DeployedOk_awardEXPForDestructionTower
              apply DeployedOk_ite
              · apply DeployedOk_awardEXPForDamage
                exact setPlayer_DeployedOk2 _ h (getOpponent?_cases hgo) (by rfl)
              · exact setPlayer_DeployedOk2 _ h (getOpponent?_cases hgo) (by rfl)
          · apply DeployedOk_ite
            · apply DeployedOk_awardEXPForDamage
              exact setPlayer_DeployedOk2 _ h (getOpponent?_cases hgo) (by rfl)
            · exact setPlayer_DeployedOk2 _ h (getOpponent?_cases hgo) (by rfl)
  · exact h

theorem DeployedOk_executeCounterAttack {e : Engine} (pid : String) (tn : TroopType)
    (roll : Bool) (h : DeployedOk e) :
    DeployedOk (executeCounterAttack e pid tn roll).1 := by
  unfold executeCounterAttack
  split
  · rename_i a b player opponent hgp hgo
    split
    · exact h
    · split
      · exact h
      · split
        · exact h
        · split
          · exact h
          · apply DeployedOk_logEvent
            apply DeployedOk_ite
            · apply DeployedOk_logEvent
              apply DeployedOk_logEvent
              apply DeployedOk_awardEXPForDestructionTroop
              apply DeployedOk_ite
              · apply DeployedOk_awardEXPForDamage
                exact setPlayer_DeployedOk2 _ h (getPlayer?_cases hgp) (by rfl)
              · exact setPlayer_DeployedOk2 _ h (getPlayer?_cases hgp) (by rfl)
            · apply DeployedOk_ite
              · apply DeployedOk_awardEXPForDamage
                exact setPlayer_DeployedOk2 _ h (getPlayer?_cases hgp) (by rfl)
              · exact setPlayer_DeployedOk2 _ h (getPlayer?_cases hgp) (by rfl)
  · exact h

theorem DeployedOk_Step {e e' : Engine} (hs : Step e e') (h : DeployedOk e) :
    DeployedOk e' := by
  cases hs with
  | start => exact DeployedOk_StartGame h
  | summon pid tn => exact DeployedOk_SummonTroop pid tn h
  | attack pid an tt tname roll => exact DeployedOk_ExecuteAttack pid an tt tname roll h
  | autoAtk pid tn roll => exact DeployedOk_executeAutoAttack pid tn roll h
  | counter pid tn roll => exact DeployedOk_executeCounterAttack pid tn roll h
  | turnEnd pid => exact DeployedOk_EndTurn pid h
  | autoTurnEnd pid => exact DeployedOk_autoEndTurn pid h
  | giveUp pid => exact DeployedOk_Surrender pid h
  | tick => exact DeployedOk_manaTick h
  | timeout => exact DeployedOk_endGameByTimeout h

theorem DeployedOk_Reachable {e0 e : Engine} (h0 : DeployedOk e0)
    (hr : Reachable e0 e) : DeployedOk e := by
  induction hr with
  | refl => exact h0
  | tail _ hs ih => exact DeployedOk_Step hs ih

theorem switchTurn_events (e : Engine) : (switchTurn e).events = e.events := by
  unfold switchTurn
  dsimp only
  split <;> split <;> rfl

theorem switchTurn_deps_simple {e : Engine}
    (hm : e.gameState.gameMode = GameMode.simple) :
    dep1 (switchTurn e) = 0 ∧ dep2 (switchTurn e) = 0 := by
  unfold switchTurn
  simp only [hm, eq_self_iff_true, if_true]
  split <;> exact ⟨rfl, rfl⟩

theorem switchTurn_currentTurn_simple {e : Engine}
    (hm : e.gameState.gameMode = GameMode.simple) :
    (switchTurn e).gameState.currentTurn =
      (if e.gameState.currentTurn = e.gameState.player1.id
       then e.gameState.player2.id else e.gameState.player1.id) := by
  unfold switchTurn
  simp only [hm, eq_self_iff_true, if_true]
  split <;> rfl

theorem EndTurn_simple_eq {e : Engine} {pid : String}
    (hm : e.gameState.gameMode = GameMode.simple) (ht : e.gameState.currentTurn = pid) :
    EndTurn e pid = ((switchTurn e).logEvent
      { type := "TURN_END", playerID := pid,
        data := [("next_turn", EVal.str (switchTurn e).gameState.currentTurn)] },
      Except.ok ()) := by
  unfold EndTurn
  rw [if_neg (by simp [hm]), if_neg (by simp [ht])]

theorem autoEndTurn_simple_eq {e : Engine} {pid : String}
    (hm : e.gameState.gameMode = GameMode.simple) (ht : e.gameState.currentTurn = pid) :
    autoEndTurn e pid = ((switchTurn e).logEvent
      { type := "TURN_END", playerID := pid,
        data := [("next_turn", EVal.str (switchTurn e).gameState.currentTurn)] }).logEvent
      { type := "TURN_END", playerID := pid,
        data := [("next_turn", EVal.str (switchTurn e).gameState.currentTurn)] } := by
  unfold autoEndTurn
  rw [if_neg (by simp [hm]), if_neg (by simp [ht])]

/-- C9: in Simple mode, `EndTurn` called by the player whose turn it is
succeeds, resets both deploy counters to 0, swaps `currentTurn` to the
other slot, and appends exactly one `TURN_END` event; the deferred
`autoEndTurn` also leaves both counters at 0; and along every reachable
sequence of engine operations both `troopsDeployedThisTurn` counters
stay in {0, 1} whenever they start there. -/
theorem C9_endturn_reset_invariant :
    (∀ (e : Engine) (pid : String),
        e.gameState.gameMode = GameMode.simple → e.gameState.currentTurn = pid →
        (EndTurn e pid).2 = Except.ok () ∧
        dep1 (EndTurn e pid).1 = 0 ∧ dep2 (EndTurn e pid).1 = 0 ∧
        (EndTurn e pid).1.gameState.currentTurn =
          (if e.gameState.currentTurn = e.gameState.player1.id
           then e.gameState.player2.id else e.gameState.player1.id) ∧
        (EndTurn e pid).1.events = e.events ++
          [{ type := "TURN_END", playerID := pid,
             data := [("next_turn", EVal.str (switchTurn e).gameState.currentTurn)] }]) ∧
    (∀ (e : Engine) (pid : String),
        e.gameState.gameMode = GameMode.simple → e.gameState.currentTurn = pid →
        dep1 (autoEndTurn e pid) = 0 ∧ dep2 (autoEndTurn e pid) = 0) ∧
    (∀ (e0 e : Engine), DeployedOk e0 → Reachable e0 e → DeployedOk e) := by
  refine ⟨?_, ?_, fun e0 e h0 hr => DeployedOk_Reachable h0 hr⟩
  · intro e pid hm ht
    rw [EndTurn_simple_eq hm ht]
    refine ⟨rfl, (switchTurn_deps_simple hm).1, (switchTurn_deps_simple hm).2, ?_, ?_⟩
    · exact switchTurn_currentTurn_simple hm
    · rw [logEvent_events, switchTurn_events]
  · intro e pid hm ht
    rw [autoEndTurn_simple_eq hm ht]
    exact ⟨(switchTurn_deps_simple hm).1, (switchTurn_deps_simple hm).2⟩

/-- C9 witness: in the concrete Simple-mode game `eDamageS` (both
counters 0, P1 to move), `EndTurn` by P1 succeeds, both counters are 0
afterwards, the turn passes to P2, and the one-step-reachable state
satisfies the counter invariant. -/
theorem C9_endturn_reset_invariant_witness :
    (EndTurn eDamageS "p1").2 = Except.ok () ∧
    dep1 (EndTurn eDamageS "p1").1 = 0 ∧ dep2 (EndTurn eDamageS "p1").1 = 0 ∧
    dep1 (autoEndTurn eDamageS "p1") = 0 ∧
    DeployedOk (EndTurn eDamageS "p1").1 :=
  ⟨(C9_endturn_reset_invariant.1 eDamageS "p1" rfl rfl).1,
   (C9_endturn_reset_invariant.1 eDamageS "p1" rfl rfl).2.1,
   (C9_endturn_reset_invariant.1 eDamageS "p1" rfl rfl).2.2.1,
   (C9_endturn_reset_invariant.2.1 eDamageS "p1" rfl rfl).1,
   C9_endturn_reset_invariant.2.2 eDamageS (EndTurn eDamageS "p1").1
     ⟨Or.inl rfl, Or.inl rfl⟩
     (Relation.ReflTransGen.single (Step.turnEnd eDamageS "p1"))⟩

theorem awardGameEndEXP_winner (e : Engine) :
    (awardGameEndEXP e).gameState.winner = e.gameState.winner := rfl

theorem endGame_winner (e : Engine) :
    (endGame e).gameState.winner = e.gameState.winner := rfl

/-- C6 (amended): the timeout evaluation first checks the King Towers —
exactly one alive King wins the game for its owner, but both Kings
destroyed is an immediate draw regardless of tower counts — and only
with both Kings alive does it compare tower losses (fewer losses wins,
equality is a draw).  The game is then finalized. -/
theorem C6_timeout_eval_amended (e : Engine) (h : e.isRunning = true) :
    (endGameByTimeout e).gameState.winner =
      timeoutWinnerAmended e.gameState.player1.id e.gameState.player2.id
        e.gameState.player1.towers e.gameState.player2.towers ∧
    (endGameByTimeout e).gameState.status = GameStatus.finished ∧
    (endGameByTimeout e).isRunning = false := by
  unfold endGameByTimeout timeoutWinnerAmended
  rw [if_neg (by simp [h])]
  refine ⟨?_, rfl, rfl⟩
  cases hk1 : kingAlive e.gameState.player1.towers <;>
    cases hk2 : kingAlive e.gameState.player2.towers <;>
      simp only [hk1, hk2, Bool.true_eq_false, Bool.false_eq_true, not_false_eq_true,
        not_true_eq_false, true_and, false_and, and_true, and_false, if_true, if_false,
        and_self, if_neg, if_pos, Bool.not_false, Bool.not_true] <;> rfl

/-- C6 (witness): the amended rule applied to the concrete
both-Kings-dead state. -/
theorem C6_timeout_eval_witness :
    eBothKingsDead.isRunning = true ∧
    (endGameByTimeout eBothKingsDead).gameState.winner =
      timeoutWinnerAmended eBothKingsDead.gameState.player1.id
        eBothKingsDead.gameState.player2.id
        eBothKingsDead.gameState.player1.towers
        eBothKingsDead.gameState.player2.towers :=
  ⟨rfl, (C6_timeout_eval_amended eBothKingsDead rfl).1⟩

/-- C7: summoning the Queen heals instead of attacking: among the
caller's own alive towers (HP > 0, and below the `math.MaxInt32`
sentinel the source loop starts from), the one with the lowest HP is
healed by exactly `min(300, maxHP − currentHP)`, and a `HEAL` event
carrying that tower's name and the heal amount is emitted
(`QueenHealSpec`). -/
theorem C7_queen_heal_lowest_alive (e : Engine) (pid : String) (player : Player)
    (hp : e.getPlayer? pid = some player)
    (hbound : ∀ u ∈ player.towers, u.hp < maxInt32)
    (halive : ∃ u ∈ player.towers, 0 < u.hp) :
    QueenHealSpec e pid player := by
  cases hs : lowestAlive player.towers with
  | none =>
    obtain ⟨u, hu, hup⟩ := halive
    exact absurd hup (lowestAlive_none hbound hs u hu)
  | some jt =>
    obtain ⟨j, t⟩ := jt
    obtain ⟨hget, hpos, hmin⟩ := lowestAlive_some hs
    have hq := handleQueenSummon_ok hp hs
    have hamt : healAmt t = min 300 (t.maxHP - t.hp) := by
      unfold healAmt
      split <;> omega
    refine ⟨j, t, hs, hget, hpos, hmin, ?_, ?_, ?_⟩
    · rw [hq, ← hamt]
    · rw [hq, getPlayer?_logEvent, ← hamt]
      exact getPlayer?_setPlayer_self hp rfl
    · rw [hq, logEvent_events, setPlayer_events, ← hamt]

theorem reviveCount_append (l1 l2 : List CombatAction) :
    reviveCount (l1 ++ l2) = reviveCount l1 + reviveCount l2 := by
  simp [reviveCount, List.countP_append]

theorem reviveCount_singleton (a : CombatAction) :
    reviveCount [a] = if a.type == "TROOP_REVIVED" then 1 else 0 := by
  simp [reviveCount, List.countP_cons]

/-- C8 (amended): on every successful summon, in both modes, the
selected troop's HP is restored to its level-scaled maxHP whether or
not it was destroyed; a `TROOP_REVIVED` event is emitted if and only if
the prior HP was ≤ 0 **or the mode is Simple**, where the source logs
it on every summon (`SummonReviveSpec`). -/
theorem C8_revive_amended (e : Engine) (pid : String) (tn : TroopType)
    (player : Player) (t : Troop)
    (h : e.getPlayer? pid = some player)
    (hf : player.troops.find? (fun x => x.name = tn) = some t)
    (hok : isOkE (SummonTroop e pid tn).2 = true) :
    SummonReviveSpec e pid tn t := by
  by_cases hc1 : e.gameState.gameMode = GameMode.simple ∧ e.gameState.currentTurn ≠ pid
  · rw [SummonTroop_notYourTurn h hc1] at hok
    simp [isOkE] at hok
  by_cases hc2 : e.gameState.gameMode = GameMode.simple ∧ 1 ≤ player.troopsDeployedThisTurn
  · rw [SummonTroop_deployLimit h hc1 hc2] at hok
    simp [isOkE] at hok
  by_cases hm : e.gameState.gameMode = GameMode.enhanced ∧ player.mana < t.mana
  · rw [SummonTroop_noMana h hc1 hc2 hf hm] at hok
    simp [isOkE] at hok
  by_cases hq : tn = TroopType.Queen
  · subst hq
    cases hlow : lowestAlive player.towers with
    | none =>
      rw [(SummonTroop_queen_err_parts h hc1 hc2 hf hm hlow).1] at hok
      simp [isOkE] at hok
    | some jt =>
      obtain ⟨j, tw⟩ := jt
      obtain ⟨hv2, hv1, hvev, _⟩ := SummonTroop_queen_ok_parts h hc1 hc2 hf hm hlow
      constructor
      · rw [hv1]
        simp only [Option.map_some']
        rw [summonPaidPlayer_troops,
          find?_modifyFirstTroop player.troops TroopType.Queen
            (reviveUpdate (fullHPFor e TroopType.Queen t)) (fun x => rfl), hf]
        rfl
      · rw [hvev, reviveCount_append, summonRevivedEngine_events]
        cases hgm : e.gameState.gameMode with
        | simple => simp [hgm, reviveCount_append, reviveCount_singleton, reviveLogSim, reviveLogEnh, summonLogEvent]
        | enhanced =>
          by_cases hhp : t.hp ≤ 0 <;>
            simp [hgm, hhp, reviveCount_append, reviveCount_singleton, reviveLogSim,
              reviveLogEnh, summonLogEvent]
  · obtain ⟨hv2, hv1, hvev, _⟩ := SummonTroop_nonqueen_parts h hc1 hc2 hf hm hq
    constructor
    · rw [hv1]
      simp only [Option.map_some']
      rw [summonPaidPlayer_troops,
        find?_modifyFirstTroop player.troops tn
          (reviveUpdate (fullHPFor e tn t)) (fun x => rfl), hf]
      rfl
    · rw [hvev, reviveCount_append, summonRevivedEngine_events]
      cases hgm : e.gameState.gameMode with
      | simple => simp [hgm, reviveCount_append, reviveCount_singleton, reviveLogSim, reviveLogEnh, summonLogEvent]
      | enhanced =>
        by_cases hhp : t.hp ≤ 0 <;>
          simp [hgm, hhp, reviveCount_append, reviveCount_singleton, reviveLogSim,
            reviveLogEnh, summonLogEvent]

/-- C8 (witness): the amended statement applied to the Simple-mode
summon of a healthy Pawn. -/
theorem C8_revive_witness :
    eHealthy.getPlayer? "p1" = some (playerOf "p1" "alice" 10 [pawnAt 100] stdTowers) ∧
    (playerOf "p1" "alice" 10 [pawnAt 100] stdTowers).troops.find?
      (fun x => x.name = TroopType.Pawn) = some (pawnAt 100) ∧
    isOkE (SummonTroop eHealthy "p1" TroopType.Pawn).2 = true ∧
    SummonReviveSpec eHealthy "p1" TroopType.Pawn (pawnAt 100) :=
  ⟨rfl, rfl, by decide,
    C8_revive_amended eHealthy "p1" TroopType.Pawn
      (playerOf "p1" "alice" 10 [pawnAt 100] stdTowers) (pawnAt 100) rfl rfl (by decide)⟩

/-- C5 (amended): the summon checks made before the HP restore
(unknown caller, wrong turn, deployment limit, unavailable troop) leave
the engine untouched; an `INSUFFICIENT_MANA` failure leaves mana and
the deployment counter unchanged but the selected troop's HP/MaxHP have
already been reset to the level-scaled full HP; a `NO_HEAL_TARGET`
failure rolls back only the deployment counter — the Enhanced-mode mana
deduction and the HP restore persist (`FailedSummonSpec`). -/
theorem C5_failed_summon_rollback_amended (e : Engine) (pid : String) (tn : TroopType) :
    FailedSummonSpec e pid tn := by
  refine ⟨?_, ?_, ?_⟩
  · intro err heq hmem
    cases hgp : e.getPlayer? pid with
    | none => rw [SummonTroop_noPlayer hgp]
    | some player =>
      by_cases hc1 : e.gameState.gameMode = GameMode.simple ∧ e.gameState.currentTurn ≠ pid
      · rw [SummonTroop_notYourTurn hgp hc1]
      by_cases hc2 : e.gameState.gameMode = GameMode.simple ∧ 1 ≤ player.troopsDeployedThisTurn
      · rw [SummonTroop_deployLimit hgp hc1 hc2]
      cases hfind : player.troops.find? (fun t => t.name = tn) with
      | none => rw [SummonTroop_noTroop hgp hc1 hc2 hfind]
      | some t =>
        by_cases hmana : e.gameState.gameMode = GameMode.enhanced ∧ player.mana < t.mana
        · rw [SummonTroop_noMana hgp hc1 hc2 hfind hmana] at heq
          rcases hmem with hx | hx | hx | hx <;> subst hx <;> simp at heq
        by_cases hq : tn = TroopType.Queen
        · subst hq
          cases hlow : lowestAlive player.towers with
          | none =>
            rw [(SummonTroop_queen_err_parts hgp hc1 hc2 hfind hmana hlow).1] at heq
            rcases hmem with hx | hx | hx | hx <;> subst hx <;> simp at heq
          | some jt =>
            rw [(SummonTroop_queen_ok_parts hgp hc1 hc2 hfind hmana hlow).1] at heq
            simp at heq
        · rw [(SummonTroop_nonqueen_parts hgp hc1 hc2 hfind hmana hq).1] at heq
          simp at heq
  · intro heq
    cases hgp : e.getPlayer? pid with
    | none => rw [SummonTroop_noPlayer hgp] at heq; simp at heq
    | some player =>
      by_cases hc1 : e.gameState.gameMode = GameMode.simple ∧ e.gameState.currentTurn ≠ pid
      · rw [SummonTroop_notYourTurn hgp hc1] at heq
        simp at heq
      by_cases hc2 : e.gameState.gameMode = GameMode.simple ∧ 1 ≤ player.troopsDeployedThisTurn
      · rw [SummonTroop_deployLimit hgp hc1 hc2] at heq
        simp at heq
      cases hfind : player.troops.find? (fun t => t.name = tn) with
      | none =>
        rw [SummonTroop_noTroop hgp hc1 hc2 hfind] at heq
        simp at heq
      | some t =>
        by_cases hmana : e.gameState.gameMode = GameMode.enhanced ∧ player.mana < t.mana
        · refine ⟨player, t, rfl, hfind, ?_⟩
          rw [SummonTroop_noMana hgp hc1 hc2 hfind hmana]
          rw [summonRevivedEngine_getPlayer? t hgp]
          rfl
        · by_cases hq : tn = TroopType.Queen
          · subst hq
            cases hlow : lowestAlive player.towers with
            | none =>
              rw [(SummonTroop_queen_err_parts hgp hc1 hc2 hfind hmana hlow).1] at heq
              simp at heq
            | some jt =>
              rw [(SummonTroop_queen_ok_parts hgp hc1 hc2 hfind hmana hlow).1] at heq
              simp at heq
          · rw [(SummonTroop_nonqueen_parts hgp hc1 hc2 hfind hmana hq).1] at heq
            simp at heq
  · intro heq
    cases hgp : e.getPlayer? pid with
    | none => rw [SummonTroop_noPlayer hgp] at heq; simp at heq
    | some player =>
      by_cases hc1 : e.gameState.gameMode = GameMode.simple ∧ e.gameState.currentTurn ≠ pid
      · rw [SummonTroop_notYourTurn hgp hc1] at heq
        simp at heq
      by_cases hc2 : e.gameState.gameMode = GameMode.simple ∧ 1 ≤ player.troopsDeployedThisTurn
      · rw [SummonTroop_deployLimit hgp hc1 hc2] at heq
        simp at heq
      cases hfind : player.troops.find? (fun t => t.name = tn) with
      | none =>
        rw [SummonTroop_noTroop hgp hc1 hc2 hfind] at heq
        simp at heq
      | some t =>
        by_cases hmana : e.gameState.gameMode = GameMode.enhanced ∧ player.mana < t.mana
        · rw [SummonTroop_noMana hgp hc1 hc2 hfind hmana] at heq
          simp at heq
        by_cases hq : tn = TroopType.Queen
        · subst hq
          cases hlow : lowestAlive player.towers with
          | none =>
            obtain ⟨hv2, hv1, _⟩ := SummonTroop_queen_err_parts hgp hc1 hc2 hfind hmana hlow
            refine ⟨player, t, rfl, hfind, ?_⟩
            refine ⟨_, hv1, ?_, ?_, ?_⟩
            · by_cases hgm : e.gameState.gameMode = GameMode.simple
              · rw [if_pos hgm]
                have hd := summonPaidPlayer_dep e TroopType.Queen player t
                rw [if_pos hgm] at hd
                simp [hd]
              · rw [if_neg hgm]
                have hd := summonPaidPlayer_dep e TroopType.Queen player t
                rw [if_neg hgm] at hd
                exact hd
            · by_cases hgm : e.gameState.gameMode = GameMode.simple
              · have hne : ¬ e.gameState.gameMode = GameMode.enhanced := by
                  rw [hgm]
                  simp
                rw [if_pos hgm, if_neg hne]
                have hd := summonPaidPlayer_mana e TroopType.Queen player t
                rw [if_neg hne] at hd
                exact hd
              · have hen : e.gameState.gameMode = GameMode.enhanced := by
                  cases hx : e.gameState.gameMode
                  · exact absurd hx hgm
                  · rfl
                rw [if_neg hgm, if_pos hen]
                have hd := summonPaidPlayer_mana e TroopType.Queen player t
                rw [if_pos hen] at hd
                exact hd
            · by_cases hgm : e.gameState.gameMode = GameMode.simple
              · rw [if_pos hgm]
                exact summonPaidPlayer_troops e TroopType.Queen player t
              · rw [if_neg hgm]
                exact summonPaidPlayer_troops e TroopType.Queen player t
          | some jt =>
            rw [(SummonTroop_queen_ok_parts hgp hc1 hc2 hfind hmana hlow).1] at heq
            simp at heq
        · rw [(SummonTroop_nonqueen_parts hgp hc1 hc2 hfind hmana hq).1] at heq
          simp at heq

/-- C5 (witness): the amended statement at the concrete no-mana and
no-heal-target engines. -/
theorem C5_failed_summon_rollback_witness :
    FailedSummonSpec eNoMana "p1" TroopType.Pawn ∧
    FailedSummonSpec eNoTowers "p1" TroopType.Queen ∧
    (SummonTroop eNoMana "p1" TroopType.Pawn).2 =
      Except.error EngineError.insufficientMana ∧
    (SummonTroop eNoTowers "p1" TroopType.Queen).2 =
      Except.error EngineError.noHealTarget :=
  ⟨C5_failed_summon_rollback_amended eNoMana "p1" TroopType.Pawn,
   C5_failed_summon_rollback_amended eNoTowers "p1" TroopType.Queen, rfl, rfl⟩

/-- C7 (witness): the spec's scenario — towers at HP 2000/400/150 with
maxHP 2000/1000/1000 — heals the HP-150 tower by 300. -/
theorem C7_queen_heal_witness :
    eQueenHeal.getPlayer? "p1" = some pQH ∧
    (∀ u ∈ pQH.towers, u.hp < maxInt32) ∧
    (∃ u ∈ pQH.towers, 0 < u.hp) ∧
    QueenHealSpec eQueenHeal "p1" pQH :=
  ⟨rfl, by decide, by decide,
    C7_queen_heal_lowest_alive eQueenHeal "p1" pQH rfl (by decide) (by decide)⟩

end TCR
